import Mathlib

/-! ArduinoChallenge: the control loop of the three-mode cart.

A shallow embedding of `src/main.cpp`.  The global variables `currMode`,
`waitIR` and `noWallCount` become the fields of `State`; one execution of
`loop()` becomes the function `loop`, which takes what the hardware delivers
during that execution (`Input`) and returns the new state together with the
sequence of hardware actions (`Action`) in program order.

Machine integers are natural numbers, with an explicit `% 256` where the
source stores into a `uint8_t`.  Floating-point values are exact rationals,
with the conversions to unsigned integers made explicit.
-/

namespace ArduinoChallenge

/-! ## Constants -/

/-- Experimental colour of the right tape, red ratio (`RIGHT_TAPE_R = 1.27`). -/
def RIGHT_TAPE_R : ℚ := 127 / 100
/-- Experimental colour of the right tape, green ratio (`RIGHT_TAPE_G = 4.45`). -/
def RIGHT_TAPE_G : ℚ := 445 / 100
/-- Experimental colour of the right tape, blue ratio (`RIGHT_TAPE_B = 3.36`). -/
def RIGHT_TAPE_B : ℚ := 336 / 100
/-- Experimental colour of the left tape, red ratio (`LEFT_TAPE_R = 2.38`). -/
def LEFT_TAPE_R : ℚ := 238 / 100
/-- Experimental colour of the left tape, green ratio (`LEFT_TAPE_G = 2.31`). -/
def LEFT_TAPE_G : ℚ := 231 / 100
/-- Experimental colour of the left tape, blue ratio (`LEFT_TAPE_B = 2.92`). -/
def LEFT_TAPE_B : ℚ := 292 / 100
/-- Experimental colour of the middle tape, red ratio (`MID_TAPE_R = 3.14`). -/
def MID_TAPE_R : ℚ := 314 / 100
/-- Experimental colour of the middle tape, green ratio (`MID_TAPE_G = 3.00`). -/
def MID_TAPE_G : ℚ := 300 / 100
/-- Experimental colour of the middle tape, blue ratio (`MID_TAPE_B = 1.64`). -/
def MID_TAPE_B : ℚ := 164 / 100

/-- Distances in cm for the ultrasonic algorithm. -/
def SMALL_DIST : Nat := 18
/-- Upper end of the acceptable band, in cm. -/
def BIG_DIST : Nat := 24
/-- Readings above this many cm mean that no wall is seen. -/
def NO_WALL_DIST : Nat := 70
/-- Number of no-wall cycles after which the cart gives up. -/
def NO_WALL_MAX_COUNT : Nat := 10

/-- Short delay between servo movements, in ms. -/
def MOVEMENT_SMALL_DELAY : Nat := 100
/-- Long delay between servo movements, in ms. -/
def MOVEMENT_BIG_DELAY : Nat := 200

/-- Cycles to wait for an IR signal before stopping the cart. -/
def WAIT_IR_SIGNAL_BEFORE_STOP : Nat := 130

/-- Delay between the frequency readings of the colour sensor, in ms. -/
def CS_INTERNAL_DELAY : Nat := 20

/-- Servo angle change for a wall-follow turn. -/
def WALL_TURN_DEG : Nat := 10
/-- Servo angle change for a tape-follow turn. -/
def TAPE_TURN_DEG : Nat := 15

/-! ## Enumerations -/

/-- The three modes (`enum class SysMode`). -/
inductive SysMode where
  | RemoteControl
  | WallFollow
  | TapeFollow
  deriving DecidableEq, Repr

/-- The three tape labels (`enum class TapeColor`). -/
inductive TapeColor where
  | MidTape
  | LeftTape
  | RightTape
  deriving DecidableEq, Repr

namespace RemoteButtons

/-- Button code `Up = 0x18`. -/
def Up : Nat := 0x18
/-- Button code `Left = 0x8`. -/
def Left : Nat := 0x8
/-- Button code `Right = 0x5A`. -/
def Right : Nat := 0x5A
/-- Button code `Down = 0x46`. -/
def Down : Nat := 0x46
/-- Button code `Mode1 = 0x45`. -/
def Mode1 : Nat := 0x45
/-- Button code `Mode2 = 0x46` (the same value as `Down`). -/
def Mode2 : Nat := 0x46
/-- Button code `Mode3 = 0x47`. -/
def Mode3 : Nat := 0x47

end RemoteButtons

/-! ## Hardware actions and program state -/

/-- One call on the hardware made by `loop()`, in program order.  Servo
writes, `delay` calls and `IrReceiver.resume()` are recorded; the pin writes
and pulse measurements inside the `Sensors` functions are inputs, not
actions. -/
inductive Action where
  /-- The call `leftServo.write(angle)`. -/
  | leftServo (angle : Nat)
  /-- The call `rightServo.write(angle)`. -/
  | rightServo (angle : Nat)
  /-- The call `delay(ms)`. -/
  | delay (ms : Nat)
  /-- The call `IrReceiver.resume()`. -/
  | resume
  deriving DecidableEq, Repr

/-- The global state variables of the sketch. -/
structure State where
  currMode : SysMode
  waitIR : Nat
  noWallCount : Nat
  deriving DecidableEq, Repr

/-- The state after the global initialisers have run. -/
def initState : State :=
  { currMode := SysMode.RemoteControl, waitIR := 0, noWallCount := 0 }

/-- A decoded infrared frame: `decodedIRData.command` as the library
delivers it, and whether `decodedIRData.flags == IRDATA_FLAGS_IS_REPEAT`. -/
structure IRData where
  command : Nat
  isRepeating : Bool
  deriving DecidableEq, Repr

/-- What the hardware delivers during one execution of `loop()`:
the frame for which `IrReceiver.decode()` returned true (if any), the value
returned by `Sensors::getDistance()`, and the four `pulseIn` results of
`Sensors::readColor()`. -/
structure Input where
  ir : Option IRData
  distance : Nat
  redFrequency : Nat
  greenFrequency : Nat
  blueFrequency : Nat
  clearFrequency : Nat
  deriving DecidableEq, Repr

/-! ## Servo movement -/

namespace Movement

/-- Source: `Movement::stopMoving`. -/
def stopMoving : List Action :=
  [Action.leftServo 90, Action.rightServo 90]

namespace RemoteControl

/-- Source: `Movement::RemoteControl::turnLeft`. -/
def turnLeft : List Action :=
  [Action.leftServo 0, Action.rightServo 0]

/-- Source: `Movement::RemoteControl::turnRight`. -/
def turnRight : List Action :=
  [Action.leftServo 180, Action.rightServo 180]

/-- Source: `Movement::RemoteControl::moveForward`. -/
def moveForward : List Action :=
  [Action.leftServo 180, Action.rightServo 0]

/-- Source: `Movement::RemoteControl::moveBackward`. -/
def moveBackward : List Action :=
  [Action.leftServo 0, Action.rightServo 180]

end RemoteControl

namespace WallFollow

/-- Source: `Movement::WallFollow::turnLeft`. -/
def turnLeft : List Action :=
  [Action.leftServo (90 + WALL_TURN_DEG), Action.rightServo 0]

/-- Source: `Movement::WallFollow::turnRight`. -/
def turnRight : List Action :=
  [Action.leftServo 180, Action.rightServo (90 - WALL_TURN_DEG)]

/-- Source: `Movement::WallFollow::moveStraight`. -/
def moveStraight : List Action :=
  [Action.leftServo 180, Action.rightServo 0]

end WallFollow

namespace TapeFollow

/-- Source: `Movement::TapeFollow::turnLeft`. -/
def turnLeft : List Action :=
  [Action.leftServo (90 - TAPE_TURN_DEG), Action.rightServo (90 - TAPE_TURN_DEG)]

/-- Source: `Movement::TapeFollow::turnRight`. -/
def turnRight : List Action :=
  [Action.leftServo (90 + TAPE_TURN_DEG), Action.rightServo (90 + TAPE_TURN_DEG)]

/-- Source: `Movement::TapeFollow::moveStraight`. -/
def moveStraight : List Action :=
  [Action.leftServo (90 + TAPE_TURN_DEG), Action.rightServo (90 - TAPE_TURN_DEG)]

end TapeFollow

end Movement

/-! ## Sensors -/

namespace Sensors

/-- The conversion of a non-negative `float` to `uint32_t`: the fractional
part is discarded.  (A value of `2^32` or more is outside the defined range
of the conversion in C++; it is reduced modulo `2^32` here.) -/
def toUInt32 (x : ℚ) : Nat :=
  ⌊x⌋₊ % 2 ^ 32

/-- The sum of absolute differences between a reference colour and the
measured ratios, the right-hand side of the three `...TapeDiff`
initialisers.  The `float` arithmetic is taken as exact rational arithmetic;
`abs` is the Arduino macro, which keeps fractions. -/
def absDiffSum (refR refG refB redRatio greenRatio blueRatio : ℚ) : ℚ :=
  |refR - redRatio| + |refG - greenRatio| + |refB - blueRatio|

/-- The value of a `const uint32_t ...TapeDiff` variable: the sum of absolute
differences converted to `uint32_t`. -/
def tapeDiff (refR refG refB redRatio greenRatio blueRatio : ℚ) : Nat :=
  toUInt32 (absDiffSum refR refG refB redRatio greenRatio blueRatio)

/-- Source: the final conditional expression of `Sensors::readColor`. -/
def minDiffColor (midTapeDiff leftTapeDiff rightTapeDiff : Nat) : TapeColor :=
  if midTapeDiff < leftTapeDiff then
    (if rightTapeDiff < midTapeDiff then TapeColor.RightTape else TapeColor.MidTape)
  else
    (if leftTapeDiff < rightTapeDiff then TapeColor.LeftTape else TapeColor.RightTape)

/-- Source: `Sensors::readColor`, from the colour ratios on. -/
def classify (redRatio greenRatio blueRatio : ℚ) : TapeColor :=
  let midTapeDiff := tapeDiff MID_TAPE_R MID_TAPE_G MID_TAPE_B redRatio greenRatio blueRatio
  let leftTapeDiff := tapeDiff LEFT_TAPE_R LEFT_TAPE_G LEFT_TAPE_B redRatio greenRatio blueRatio
  let rightTapeDiff :=
    tapeDiff RIGHT_TAPE_R RIGHT_TAPE_G RIGHT_TAPE_B redRatio greenRatio blueRatio
  minDiffColor midTapeDiff leftTapeDiff rightTapeDiff

/-- Source: `Sensors::readColor`, given the four `pulseIn` results.  The
division is exact rational division (Lean gives `x / 0 = 0`; the source
divides floats, so a zero clear frequency is outside this model). -/
def readColor (redFrequency greenFrequency blueFrequency clearFrequency : Nat) : TapeColor :=
  let redRatio : ℚ := (redFrequency : ℚ) / (clearFrequency : ℚ)
  let greenRatio : ℚ := (greenFrequency : ℚ) / (clearFrequency : ℚ)
  let blueRatio : ℚ := (blueFrequency : ℚ) / (clearFrequency : ℚ)
  classify redRatio greenRatio blueRatio

/-- One of the three divisions `(float) frequency / clearFrequency` of
`Sensors::readColor`, with the divisor checked: `none` stands for a division
executed with the divisor zero. -/
def divide (frequency clearFrequency : Nat) : Option ℚ :=
  if clearFrequency = 0 then none
  else some ((frequency : ℚ) / (clearFrequency : ℚ))

/-- Source: `Sensors::readColor`, with its three divisions checked: the result
is `none` when a division is executed with the divisor zero.  The source has
no test between the four readings and the divisions. -/
def readColorChecked (redFrequency greenFrequency blueFrequency clearFrequency : Nat) :
    Option TapeColor :=
  match divide redFrequency clearFrequency, divide greenFrequency clearFrequency,
    divide blueFrequency clearFrequency with
  | some redRatio, some greenRatio, some blueRatio =>
      some (classify redRatio greenRatio blueRatio)
  | _, _, _ => none

/-- The stored difference that belongs to a label, among the three. -/
def diffOf (midTapeDiff leftTapeDiff rightTapeDiff : Nat) : TapeColor → Nat
  | TapeColor.MidTape => midTapeDiff
  | TapeColor.LeftTape => leftTapeDiff
  | TapeColor.RightTape => rightTapeDiff

/-- The conversion of a non-negative floating-point value to `uint16_t`: the
fractional part is discarded.  (A value of `2^16` or more is outside the
defined range of the conversion in C++; it is reduced modulo `2^16` here.) -/
def toUInt16 (x : ℚ) : Nat :=
  ⌊x⌋₊ % 2 ^ 16

/-- Source: `Sensors::getDistance`, given the `pulseIn` result `duration`
(0 when the echo pulse timed out): `duration * 0.034 / 2` returned as a
`uint16_t`.  The floating-point arithmetic is taken as exact rational
arithmetic. -/
def getDistance (duration : Nat) : Nat :=
  toUInt16 ((duration : ℚ) * (34 / 1000) / 2)

/-- The hardware calls of `Sensors::readColor`: one delay after each of the
four frequency readings. -/
def readColorActions : List Action :=
  [Action.delay CS_INTERNAL_DELAY, Action.delay CS_INTERNAL_DELAY,
   Action.delay CS_INTERNAL_DELAY, Action.delay CS_INTERNAL_DELAY]

end Sensors

/-! ## The control loop -/

/-- The result of one execution of `loop()`. -/
structure Outcome where
  state : State
  actions : List Action
  deriving DecidableEq, Repr

/-- Source: `loop()`, the `SysMode::RemoteControl` branch when
`IrReceiver.decode()` returned a frame.  The command is stored in a
`uint8_t` local, hence the `% 256`. -/
def remoteControlEvent (s : State) (ev : IRData) : Outcome :=
  let command := ev.command % 256
  if command = RemoteButtons.Up then
    { state := { s with waitIR := WAIT_IR_SIGNAL_BEFORE_STOP % 256 },
      actions := Movement.RemoteControl.moveForward ++ [Action.resume] }
  else if command = RemoteButtons.Left then
    { state := { s with waitIR := WAIT_IR_SIGNAL_BEFORE_STOP % 256 },
      actions := Movement.RemoteControl.turnLeft ++ [Action.resume] }
  else if command = RemoteButtons.Right then
    { state := { s with waitIR := WAIT_IR_SIGNAL_BEFORE_STOP % 256 },
      actions := Movement.RemoteControl.turnRight ++ [Action.resume] }
  else if command = RemoteButtons.Down then
    { state := { s with waitIR := WAIT_IR_SIGNAL_BEFORE_STOP % 256 },
      actions := Movement.RemoteControl.moveBackward ++ [Action.resume] }
  else if command = RemoteButtons.Mode2 then
    if !ev.isRepeating then
      { state := { s with noWallCount := 0, currMode := SysMode.WallFollow },
        actions := Movement.stopMoving ++ [Action.delay MOVEMENT_SMALL_DELAY] ++ [Action.resume] }
    else
      { state := s, actions := [Action.resume] }
  else if command = RemoteButtons.Mode3 then
    if !ev.isRepeating then
      { state := { s with currMode := SysMode.TapeFollow },
        actions := Movement.stopMoving ++ [Action.delay MOVEMENT_SMALL_DELAY] ++ [Action.resume] }
    else
      { state := s, actions := [Action.resume] }
  else
    { state := s, actions := [Action.resume] }

/-- Source: `loop()`, the `SysMode::RemoteControl` branch when no frame was
decoded.  The decrement `--waitIR` is the one of a `uint8_t`: it adds 255
modulo 256. -/
def remoteControlIdle (s : State) : Outcome :=
  if s.waitIR ≠ 0 then
    if s.waitIR > 1 then
      { state := { s with waitIR := (s.waitIR + 255) % 256 }, actions := [Action.delay 1] }
    else
      { state := { s with waitIR := 0 }, actions := Movement.stopMoving }
  else
    { state := s, actions := [] }

/-- Source: `loop()`, the test for button 1 in the `WallFollow` and
`TapeFollow` branches when a frame was decoded (the two branches have the
same text).  The command is compared as delivered, and the repeat flag is
not read. -/
def autonomousEvent (s : State) (ev : IRData) : Outcome :=
  if ev.command = RemoteButtons.Mode1 then
    { state := { s with currMode := SysMode.RemoteControl },
      actions := Movement.stopMoving ++ [Action.resume] }
  else
    { state := s, actions := [Action.resume] }

/-- Source: `loop()`, the wall-follow task for a given `distance`. -/
def wallFollowTask (s : State) (distance : Nat) : Outcome :=
  if distance > NO_WALL_DIST then
    if s.noWallCount ≥ NO_WALL_MAX_COUNT then
      { state := { s with currMode := SysMode.RemoteControl },
        actions := Movement.stopMoving }
    else
      { state := { s with noWallCount := (s.noWallCount + 1) % 256 },
        actions := Movement.WallFollow.moveStraight }
  else
    let s1 := { s with noWallCount := 0 }
    if distance < SMALL_DIST then
      { state := s1,
        actions := Movement.WallFollow.turnRight ++ [Action.delay MOVEMENT_BIG_DELAY] ++
          Movement.WallFollow.moveStraight ++ [Action.delay MOVEMENT_SMALL_DELAY] }
    else if distance < BIG_DIST then
      { state := s1,
        actions := Movement.WallFollow.moveStraight ++ [Action.delay MOVEMENT_BIG_DELAY] }
    else
      { state := s1,
        actions := Movement.WallFollow.turnLeft ++ [Action.delay MOVEMENT_BIG_DELAY] ++
          Movement.WallFollow.moveStraight ++ [Action.delay MOVEMENT_SMALL_DELAY] }

/-- Source: `loop()`, the tape-follow task for a colour `c` already read. -/
def tapeFollowTask (s : State) (c : TapeColor) : Outcome :=
  let move : List Action :=
    match c with
    | TapeColor.MidTape =>
        Movement.TapeFollow.moveStraight ++ [Action.delay MOVEMENT_BIG_DELAY]
    | TapeColor.LeftTape =>
        Movement.TapeFollow.turnRight ++ [Action.delay MOVEMENT_SMALL_DELAY]
    | TapeColor.RightTape =>
        Movement.TapeFollow.turnLeft ++ [Action.delay MOVEMENT_SMALL_DELAY]
  { state := s,
    actions := move ++ Movement.stopMoving ++ [Action.delay MOVEMENT_SMALL_DELAY] }

/-- Source: `loop()`.  One control cycle. -/
def loop (s : State) (i : Input) : Outcome :=
  match s.currMode with
  | SysMode.RemoteControl =>
      match i.ir with
      | some ev => remoteControlEvent s ev
      | none => remoteControlIdle s
  | SysMode.WallFollow =>
      match i.ir with
      | some ev => autonomousEvent s ev
      | none => wallFollowTask s i.distance
  | SysMode.TapeFollow =>
      match i.ir with
      | some ev => autonomousEvent s ev
      | none =>
          let c := Sensors.readColor i.redFrequency i.greenFrequency i.blueFrequency
            i.clearFrequency
          let o := tapeFollowTask s c
          { o with actions := Sensors.readColorActions ++ o.actions }

/-- Consecutive executions of `loop()`, one per input: the final state and
the action sequence of each execution, in order. -/
def run (s : State) : List Input → State × List (List Action)
  | [] => (s, [])
  | i :: rest =>
      let o := loop s i
      let r := run o.state rest
      (r.1, o.actions :: r.2)

/-- The servo writes among a sequence of actions. -/
def servoWrites (as : List Action) : List Action :=
  as.filter fun a =>
    match a with
    | Action.leftServo _ => true
    | Action.rightServo _ => true
    | _ => false

/-- The steering commands among a sequence of actions: every `Movement`
function writes the left servo and then the right servo, and each such pair
of writes is one command (left angle, right angle). -/
def steeringCommands : List Action → List (Nat × Nat)
  | [] => []
  | Action.leftServo l :: Action.rightServo r :: rest => (l, r) :: steeringCommands rest
  | _ :: rest => steeringCommands rest

/-! ## Wall following -/

/-- C1: a wall-follow cycle without a remote frame and with a reading of at
most 70 cm turns right then straightens when the reading is below 18, goes
straight for 200 ms when it is at least 18 and below 24, and turns left then
straightens when it is 24 or more. -/
theorem wallFollow_bands (s : State) (i : Input)
    (hm : s.currMode = SysMode.WallFollow) (he : i.ir = none) (hd : i.distance ≤ 70) :
    (i.distance < 18 →
      (loop s i).actions =
        [Action.leftServo 180, Action.rightServo 80, Action.delay 200,
         Action.leftServo 180, Action.rightServo 0, Action.delay 100]) ∧
    (18 ≤ i.distance → i.distance < 24 →
      (loop s i).actions =
        [Action.leftServo 180, Action.rightServo 0, Action.delay 200]) ∧
    (24 ≤ i.distance →
      (loop s i).actions =
        [Action.leftServo 100, Action.rightServo 0, Action.delay 200,
         Action.leftServo 180, Action.rightServo 0, Action.delay 100]) := by
  have hnw : ¬ i.distance > NO_WALL_DIST := by
    simp only [NO_WALL_DIST]; omega
  refine ⟨fun h => ?_, fun h1 h2 => ?_, fun h => ?_⟩
  · have h18 : i.distance < SMALL_DIST := h
    simp [loop, hm, he, wallFollowTask, hnw, h18, Movement.WallFollow.turnRight,
      Movement.WallFollow.moveStraight, MOVEMENT_BIG_DELAY, MOVEMENT_SMALL_DELAY,
      WALL_TURN_DEG]
  · have h18 : ¬ i.distance < SMALL_DIST := by simp only [SMALL_DIST]; omega
    have h24 : i.distance < BIG_DIST := h2
    simp [loop, hm, he, wallFollowTask, hnw, h18, h24,
      Movement.WallFollow.moveStraight, MOVEMENT_BIG_DELAY]
  · have h18 : ¬ i.distance < SMALL_DIST := by simp only [SMALL_DIST]; omega
    have h24 : ¬ i.distance < BIG_DIST := by simp only [BIG_DIST]; omega
    simp [loop, hm, he, wallFollowTask, hnw, h18, h24, Movement.WallFollow.turnLeft,
      Movement.WallFollow.moveStraight, MOVEMENT_BIG_DELAY, MOVEMENT_SMALL_DELAY,
      WALL_TURN_DEG]

/-- C1 at the readings 10, 20 and 50 cm, one in each band. -/
theorem wallFollow_bands_witness :
    (loop ⟨SysMode.WallFollow, 0, 3⟩ ⟨none, 10, 0, 0, 0, 0⟩).actions =
        [Action.leftServo 180, Action.rightServo 80, Action.delay 200,
         Action.leftServo 180, Action.rightServo 0, Action.delay 100] ∧
    (loop ⟨SysMode.WallFollow, 0, 3⟩ ⟨none, 20, 0, 0, 0, 0⟩).actions =
        [Action.leftServo 180, Action.rightServo 0, Action.delay 200] ∧
    (loop ⟨SysMode.WallFollow, 0, 3⟩ ⟨none, 50, 0, 0, 0, 0⟩).actions =
        [Action.leftServo 100, Action.rightServo 0, Action.delay 200,
         Action.leftServo 180, Action.rightServo 0, Action.delay 100] :=
  ⟨(wallFollow_bands ⟨SysMode.WallFollow, 0, 3⟩ ⟨none, 10, 0, 0, 0, 0⟩ rfl rfl
      (by decide)).1 (by decide),
   (wallFollow_bands ⟨SysMode.WallFollow, 0, 3⟩ ⟨none, 20, 0, 0, 0, 0⟩ rfl rfl
      (by decide)).2.1 (by decide) (by decide),
   (wallFollow_bands ⟨SysMode.WallFollow, 0, 3⟩ ⟨none, 50, 0, 0, 0, 0⟩ rfl rfl
      (by decide)).2.2 (by decide)⟩

/-- One wall-follow cycle without a frame, reading above the no-wall
distance, counter below the maximum. -/
lemma loop_noWall_below (s : State) (i : Input)
    (hm : s.currMode = SysMode.WallFollow) (he : i.ir = none)
    (hd : i.distance > NO_WALL_DIST) (hc : s.noWallCount < NO_WALL_MAX_COUNT) :
    loop s i =
      { state := { s with noWallCount := s.noWallCount + 1 },
        actions := Movement.WallFollow.moveStraight } := by
  have hc1 : ¬ s.noWallCount ≥ NO_WALL_MAX_COUNT := by omega
  have hmod : (s.noWallCount + 1) % 256 = s.noWallCount + 1 := by
    apply Nat.mod_eq_of_lt
    simp only [NO_WALL_MAX_COUNT] at hc
    omega
  simp only [loop, hm, he, wallFollowTask, hd, hc1, if_true, if_false, hmod]

/-- One wall-follow cycle without a frame, reading above the no-wall
distance, counter at the maximum or beyond. -/
lemma loop_noWall_giveUp (s : State) (i : Input)
    (hm : s.currMode = SysMode.WallFollow) (he : i.ir = none)
    (hd : i.distance > NO_WALL_DIST) (hc : s.noWallCount ≥ NO_WALL_MAX_COUNT) :
    loop s i =
      { state := { s with currMode := SysMode.RemoteControl },
        actions := Movement.stopMoving } := by
  simp only [loop, hm, he, wallFollowTask, hd, hc, if_true]

/-- Consecutive no-wall cycles while the counter stays within the maximum:
every cycle goes straight and the counter counts them. -/
lemma run_noWall (ins : List Input) :
    ∀ s : State, s.currMode = SysMode.WallFollow →
      s.noWallCount + ins.length ≤ NO_WALL_MAX_COUNT →
      (∀ i ∈ ins, i.ir = none ∧ i.distance > NO_WALL_DIST) →
      run s ins =
        ({ s with noWallCount := s.noWallCount + ins.length },
         List.replicate ins.length Movement.WallFollow.moveStraight) := by
  induction ins with
  | nil => intro s _ _ _; rfl
  | cons i rest ih =>
    intro s hm hc hall
    have hi := hall i (List.mem_cons_self i rest)
    have hlen : (i :: rest).length = rest.length + 1 := rfl
    have hstep := loop_noWall_below s i hm hi.1 hi.2 (by omega)
    have hrest := ih { s with noWallCount := s.noWallCount + 1 } hm
      (by simp only [hlen] at hc; simp only; omega)
      (fun j hj => hall j (List.mem_cons_of_mem i hj))
    simp only [run, hstep, hrest, hlen, List.replicate_succ]
    congr 2
    omega

/-- C2, counterexample: at a reading of exactly 70 cm the first cycle is the
turn-left maneuver, not the straight command, and after eleven such cycles
the mode is still WallFollow and no cycle has stopped the cart. -/
theorem noWall_threshold_counterexample :
    (70 : Nat) ≥ NO_WALL_DIST ∧
    (loop ⟨SysMode.WallFollow, 0, 0⟩ ⟨none, 70, 0, 0, 0, 0⟩).actions =
      [Action.leftServo 100, Action.rightServo 0, Action.delay 200,
       Action.leftServo 180, Action.rightServo 0, Action.delay 100] ∧
    (run ⟨SysMode.WallFollow, 0, 0⟩
      (List.replicate 11 ⟨none, 70, 0, 0, 0, 0⟩)).1.currMode = SysMode.WallFollow ∧
    Movement.stopMoving ∉ (run ⟨SysMode.WallFollow, 0, 0⟩
      (List.replicate 11 ⟨none, 70, 0, 0, 0, 0⟩)).2 := by
  decide

/-- C2, amended: from WallFollow with the no-wall counter at 0 and no remote
frames, when every reading is strictly above 70 cm, each of the first ten
cycles emits the straight command and the eleventh emits Stop and switches
to RemoteControl.  (The readings may differ from cycle to cycle.) -/
theorem noWall_giveUp_after_max (s : State) (first : List Input) (last : Input)
    (hm : s.currMode = SysMode.WallFollow) (hc : s.noWallCount = 0)
    (hlen : first.length = 10)
    (hfirst : ∀ i ∈ first, i.ir = none ∧ i.distance > 70)
    (hlast : last.ir = none ∧ last.distance > 70) :
    (run s first).2 =
      List.replicate 10 [Action.leftServo 180, Action.rightServo 0] ∧
    (loop (run s first).1 last).actions =
      [Action.leftServo 90, Action.rightServo 90] ∧
    (loop (run s first).1 last).state.currMode = SysMode.RemoteControl := by
  have hrun := run_noWall first s hm
    (by simp only [hc, hlen, NO_WALL_MAX_COUNT]; omega) hfirst
  have hstop := loop_noWall_giveUp { s with noWallCount := s.noWallCount + first.length }
    last hm hlast.1 hlast.2 (by simp only [hc, hlen, NO_WALL_MAX_COUNT]; omega)
  rw [hrun, hstop, hlen]
  exact ⟨rfl, rfl, rfl⟩

/-- C2 amended, at eleven readings of 71 cm. -/
theorem noWall_giveUp_after_max_witness :
    (run ⟨SysMode.WallFollow, 0, 0⟩ (List.replicate 10 ⟨none, 71, 0, 0, 0, 0⟩)).2 =
      List.replicate 10 [Action.leftServo 180, Action.rightServo 0] ∧
    (loop (run ⟨SysMode.WallFollow, 0, 0⟩ (List.replicate 10 ⟨none, 71, 0, 0, 0, 0⟩)).1
      ⟨none, 71, 0, 0, 0, 0⟩).actions = [Action.leftServo 90, Action.rightServo 90] ∧
    (loop (run ⟨SysMode.WallFollow, 0, 0⟩ (List.replicate 10 ⟨none, 71, 0, 0, 0, 0⟩)).1
      ⟨none, 71, 0, 0, 0, 0⟩).state.currMode = SysMode.RemoteControl :=
  noWall_giveUp_after_max ⟨SysMode.WallFollow, 0, 0⟩
    (List.replicate 10 ⟨none, 71, 0, 0, 0, 0⟩) ⟨none, 71, 0, 0, 0, 0⟩ rfl rfl rfl
    (by decide) (by decide)

/-- C3: a wall-follow cycle without a remote frame and with a reading above
70 cm either goes straight, adds one to the no-wall counter and stays in
WallFollow (counter below 10), or stops and switches to RemoteControl
(counter at 10 or more); nothing else is emitted and nothing else changes. -/
theorem noWall_tick (s : State) (i : Input)
    (hm : s.currMode = SysMode.WallFollow) (he : i.ir = none) (hd : i.distance > 70) :
    (s.noWallCount < 10 →
      (loop s i).actions = [Action.leftServo 180, Action.rightServo 0] ∧
      (loop s i).state.noWallCount = s.noWallCount + 1 ∧
      (loop s i).state.currMode = SysMode.WallFollow ∧
      (loop s i).state.waitIR = s.waitIR) ∧
    (s.noWallCount ≥ 10 →
      (loop s i).actions = [Action.leftServo 90, Action.rightServo 90] ∧
      (loop s i).state.currMode = SysMode.RemoteControl ∧
      (loop s i).state.noWallCount = s.noWallCount ∧
      (loop s i).state.waitIR = s.waitIR) := by
  refine ⟨fun hc => ?_, fun hc => ?_⟩
  · rw [loop_noWall_below s i hm he hd hc]
    exact ⟨rfl, rfl, hm, rfl⟩
  · rw [loop_noWall_giveUp s i hm he hd hc]
    exact ⟨rfl, rfl, rfl, rfl⟩

/-- C3, the end-to-end scenario: from a counter of 9 with a reading of 80 cm
the first cycle goes straight and makes the counter 10, and the second cycle
stops and switches to RemoteControl. -/
theorem noWall_tick_witness :
    ((loop ⟨SysMode.WallFollow, 0, 9⟩ ⟨none, 80, 0, 0, 0, 0⟩).actions =
        [Action.leftServo 180, Action.rightServo 0] ∧
      (loop ⟨SysMode.WallFollow, 0, 9⟩ ⟨none, 80, 0, 0, 0, 0⟩).state.noWallCount = 9 + 1 ∧
      (loop ⟨SysMode.WallFollow, 0, 9⟩ ⟨none, 80, 0, 0, 0, 0⟩).state.currMode =
        SysMode.WallFollow ∧
      (loop ⟨SysMode.WallFollow, 0, 9⟩ ⟨none, 80, 0, 0, 0, 0⟩).state.waitIR = 0) ∧
    ((loop ⟨SysMode.WallFollow, 0, 10⟩ ⟨none, 80, 0, 0, 0, 0⟩).actions =
        [Action.leftServo 90, Action.rightServo 90] ∧
      (loop ⟨SysMode.WallFollow, 0, 10⟩ ⟨none, 80, 0, 0, 0, 0⟩).state.currMode =
        SysMode.RemoteControl ∧
      (loop ⟨SysMode.WallFollow, 0, 10⟩ ⟨none, 80, 0, 0, 0, 0⟩).state.noWallCount = 10 ∧
      (loop ⟨SysMode.WallFollow, 0, 10⟩ ⟨none, 80, 0, 0, 0, 0⟩).state.waitIR = 0) :=
  ⟨(noWall_tick ⟨SysMode.WallFollow, 0, 9⟩ ⟨none, 80, 0, 0, 0, 0⟩ rfl rfl
      (by decide)).1 (by decide),
   (noWall_tick ⟨SysMode.WallFollow, 0, 10⟩ ⟨none, 80, 0, 0, 0, 0⟩ rfl rfl
      (by decide)).2 (by decide)⟩

/-! ## Remote control -/

/-- C4: in RemoteControl mode a frame carrying a movement button, repeating
or not, writes that button's servo pair (Up 180/0, Down 0/180, Left 0/0,
Right 180/180), sets the countdown to 130 and keeps the mode; the frame is
then released and nothing else changes. -/
theorem remote_movement_button (s : State) (i : Input) (ev : IRData)
    (hm : s.currMode = SysMode.RemoteControl) (he : i.ir = some ev) :
    (ev.command = RemoteButtons.Up →
      loop s i = ⟨{ s with waitIR := 130 },
        [Action.leftServo 180, Action.rightServo 0, Action.resume]⟩) ∧
    (ev.command = RemoteButtons.Down →
      loop s i = ⟨{ s with waitIR := 130 },
        [Action.leftServo 0, Action.rightServo 180, Action.resume]⟩) ∧
    (ev.command = RemoteButtons.Left →
      loop s i = ⟨{ s with waitIR := 130 },
        [Action.leftServo 0, Action.rightServo 0, Action.resume]⟩) ∧
    (ev.command = RemoteButtons.Right →
      loop s i = ⟨{ s with waitIR := 130 },
        [Action.leftServo 180, Action.rightServo 180, Action.resume]⟩) ∧
    ((ev.command = RemoteButtons.Up ∨ ev.command = RemoteButtons.Down ∨
        ev.command = RemoteButtons.Left ∨ ev.command = RemoteButtons.Right) →
      (loop s i).state.waitIR = WAIT_IR_SIGNAL_BEFORE_STOP ∧
      (loop s i).state.currMode = SysMode.RemoteControl) := by
  refine ⟨fun h => ?_, fun h => ?_, fun h => ?_, fun h => ?_, fun h => ?_⟩
  · simp [loop, hm, he, remoteControlEvent, h, RemoteButtons.Up,
      WAIT_IR_SIGNAL_BEFORE_STOP, Movement.RemoteControl.moveForward]
  · simp [loop, hm, he, remoteControlEvent, h, RemoteButtons.Up, RemoteButtons.Left,
      RemoteButtons.Right, RemoteButtons.Down,
      WAIT_IR_SIGNAL_BEFORE_STOP, Movement.RemoteControl.moveBackward]
  · simp [loop, hm, he, remoteControlEvent, h, RemoteButtons.Up, RemoteButtons.Left,
      WAIT_IR_SIGNAL_BEFORE_STOP, Movement.RemoteControl.turnLeft]
  · simp [loop, hm, he, remoteControlEvent, h, RemoteButtons.Up, RemoteButtons.Left,
      RemoteButtons.Right,
      WAIT_IR_SIGNAL_BEFORE_STOP, Movement.RemoteControl.turnRight]
  · rcases h with h | h | h | h <;>
      simp [loop, hm, he, remoteControlEvent, h, RemoteButtons.Up, RemoteButtons.Left,
        RemoteButtons.Right, RemoteButtons.Down, WAIT_IR_SIGNAL_BEFORE_STOP]

/-- C4 at the four movement buttons, two of the frames repeating. -/
theorem remote_movement_button_witness :
    loop ⟨SysMode.RemoteControl, 0, 0⟩ ⟨some ⟨0x18, false⟩, 0, 0, 0, 0, 0⟩ =
      ⟨⟨SysMode.RemoteControl, 130, 0⟩,
        [Action.leftServo 180, Action.rightServo 0, Action.resume]⟩ ∧
    loop ⟨SysMode.RemoteControl, 7, 0⟩ ⟨some ⟨0x46, true⟩, 0, 0, 0, 0, 0⟩ =
      ⟨⟨SysMode.RemoteControl, 130, 0⟩,
        [Action.leftServo 0, Action.rightServo 180, Action.resume]⟩ ∧
    loop ⟨SysMode.RemoteControl, 0, 0⟩ ⟨some ⟨0x8, true⟩, 0, 0, 0, 0, 0⟩ =
      ⟨⟨SysMode.RemoteControl, 130, 0⟩,
        [Action.leftServo 0, Action.rightServo 0, Action.resume]⟩ ∧
    loop ⟨SysMode.RemoteControl, 0, 0⟩ ⟨some ⟨0x5A, false⟩, 0, 0, 0, 0, 0⟩ =
      ⟨⟨SysMode.RemoteControl, 130, 0⟩,
        [Action.leftServo 180, Action.rightServo 180, Action.resume]⟩ :=
  ⟨(remote_movement_button ⟨SysMode.RemoteControl, 0, 0⟩
      ⟨some ⟨0x18, false⟩, 0, 0, 0, 0, 0⟩ ⟨0x18, false⟩ rfl rfl).1 rfl,
   (remote_movement_button ⟨SysMode.RemoteControl, 7, 0⟩
      ⟨some ⟨0x46, true⟩, 0, 0, 0, 0, 0⟩ ⟨0x46, true⟩ rfl rfl).2.1 rfl,
   (remote_movement_button ⟨SysMode.RemoteControl, 0, 0⟩
      ⟨some ⟨0x8, true⟩, 0, 0, 0, 0, 0⟩ ⟨0x8, true⟩ rfl rfl).2.2.1 rfl,
   (remote_movement_button ⟨SysMode.RemoteControl, 0, 0⟩
      ⟨some ⟨0x5A, false⟩, 0, 0, 0, 0, 0⟩ ⟨0x5A, false⟩ rfl rfl).2.2.2.1 rfl⟩

/-- One RemoteControl cycle without a frame while the countdown is above 1. -/
lemma loop_idle_above_one (s : State) (i : Input)
    (hm : s.currMode = SysMode.RemoteControl) (he : i.ir = none) (hw : s.waitIR > 1)
    (h8 : s.waitIR < 256) :
    loop s i = ⟨{ s with waitIR := s.waitIR - 1 }, [Action.delay 1]⟩ := by
  have h0 : s.waitIR ≠ 0 := by omega
  have hdec : (s.waitIR + 255) % 256 = s.waitIR - 1 := by omega
  simp only [loop, hm, he, remoteControlIdle, h0, hw, ne_eq, not_false_eq_true, if_true,
    hdec]

/-- One RemoteControl cycle without a frame when the countdown is 1. -/
lemma loop_idle_one (s : State) (i : Input)
    (hm : s.currMode = SysMode.RemoteControl) (he : i.ir = none) (hw : s.waitIR = 1) :
    loop s i = ⟨{ s with waitIR := 0 }, Movement.stopMoving⟩ := by
  simp [loop, hm, he, remoteControlIdle, hw]

/-- Consecutive RemoteControl cycles without a frame, fewer than the
countdown: each one only waits 1 ms and takes one off the countdown. -/
lemma run_idle (ins : List Input) :
    ∀ s : State, s.currMode = SysMode.RemoteControl →
      ins.length < s.waitIR → s.waitIR < 256 →
      (∀ i ∈ ins, i.ir = none) →
      run s ins =
        ({ s with waitIR := s.waitIR - ins.length },
         List.replicate ins.length [Action.delay 1]) := by
  induction ins with
  | nil => intro s _ _ _ _; rfl
  | cons i rest ih =>
    intro s hm hc h8 hall
    have hlen : (i :: rest).length = rest.length + 1 := rfl
    rw [hlen] at hc
    have hstep := loop_idle_above_one s i hm (hall i (List.mem_cons_self i rest)) (by omega) h8
    have hrest := ih { s with waitIR := s.waitIR - 1 } hm
      (by simp only; omega) (by simp only; omega)
      (fun j hj => hall j (List.mem_cons_of_mem i hj))
    simp only [run, hstep, hrest, hlen, List.replicate_succ]
    congr 2
    omega

/-- C5: in RemoteControl mode, after one frame with a movement button, each
of the next 129 cycles without a frame only waits 1 ms (no servo is written,
so the movement stays in effect), and the cycle after them writes Stop and
sets the countdown to 0. -/
theorem remote_countdown_then_stop (s : State) (press : Input) (ev : IRData)
    (idle : List Input) (last : Input)
    (hm : s.currMode = SysMode.RemoteControl) (hp : press.ir = some ev)
    (hb : ev.command = RemoteButtons.Up ∨ ev.command = RemoteButtons.Down ∨
      ev.command = RemoteButtons.Left ∨ ev.command = RemoteButtons.Right)
    (hlen : idle.length = WAIT_IR_SIGNAL_BEFORE_STOP - 1)
    (hidle : ∀ i ∈ idle, i.ir = none) (hlast : last.ir = none) :
    (loop s press).state.waitIR = 130 ∧
    (run (loop s press).state idle).2 = List.replicate 129 [Action.delay 1] ∧
    (∀ t ∈ (run (loop s press).state idle).2, servoWrites t = []) ∧
    (loop (run (loop s press).state idle).1 last).actions =
      [Action.leftServo 90, Action.rightServo 90] ∧
    (loop (run (loop s press).state idle).1 last).state.waitIR = 0 ∧
    (loop (run (loop s press).state idle).1 last).state.currMode =
      SysMode.RemoteControl := by
  have hlen1 : idle.length = 129 := hlen
  have hs1 : (loop s press).state = { s with waitIR := 130 } := by
    rcases hb with h | h | h | h <;>
      simp [loop, hm, hp, remoteControlEvent, h, RemoteButtons.Up, RemoteButtons.Left,
        RemoteButtons.Right, RemoteButtons.Down, WAIT_IR_SIGNAL_BEFORE_STOP]
  have hrun := run_idle idle { s with waitIR := 130 } hm (by simp only [hlen1]; omega)
    (by simp only; omega) hidle
  have hstop := loop_idle_one { s with waitIR := 130 - idle.length } last hm hlast
    (by simp only [hlen1])
  rw [hs1, hrun, hlen1] at *
  refine ⟨rfl, rfl, ?_, ?_, ?_, ?_⟩
  · intro t ht
    rw [List.eq_of_mem_replicate ht]
    rfl
  · rw [hstop]; rfl
  · rw [hstop]
  · rw [hstop]; exact hm

/-- C5 after an Up frame from the initial state. -/
theorem remote_countdown_then_stop_witness :
    (loop initState ⟨some ⟨0x18, false⟩, 0, 0, 0, 0, 0⟩).state.waitIR = 130 ∧
    (run (loop initState ⟨some ⟨0x18, false⟩, 0, 0, 0, 0, 0⟩).state
      (List.replicate 129 ⟨none, 0, 0, 0, 0, 0⟩)).2 = List.replicate 129 [Action.delay 1] ∧
    (∀ t ∈ (run (loop initState ⟨some ⟨0x18, false⟩, 0, 0, 0, 0, 0⟩).state
      (List.replicate 129 ⟨none, 0, 0, 0, 0, 0⟩)).2, servoWrites t = []) ∧
    (loop (run (loop initState ⟨some ⟨0x18, false⟩, 0, 0, 0, 0, 0⟩).state
      (List.replicate 129 ⟨none, 0, 0, 0, 0, 0⟩)).1 ⟨none, 0, 0, 0, 0, 0⟩).actions =
      [Action.leftServo 90, Action.rightServo 90] ∧
    (loop (run (loop initState ⟨some ⟨0x18, false⟩, 0, 0, 0, 0, 0⟩).state
      (List.replicate 129 ⟨none, 0, 0, 0, 0, 0⟩)).1 ⟨none, 0, 0, 0, 0, 0⟩).state.waitIR = 0 ∧
    (loop (run (loop initState ⟨some ⟨0x18, false⟩, 0, 0, 0, 0, 0⟩).state
      (List.replicate 129 ⟨none, 0, 0, 0, 0, 0⟩)).1 ⟨none, 0, 0, 0, 0, 0⟩).state.currMode =
      SysMode.RemoteControl :=
  remote_countdown_then_stop initState ⟨some ⟨0x18, false⟩, 0, 0, 0, 0, 0⟩ ⟨0x18, false⟩
    (List.replicate 129 ⟨none, 0, 0, 0, 0, 0⟩) ⟨none, 0, 0, 0, 0, 0⟩ rfl rfl
    (Or.inl rfl) (List.length_replicate 129 _)
    (fun i hi => by rw [List.eq_of_mem_replicate hi]) rfl

/-! ## Mode buttons -/

/-- C6, counterexample: in WallFollow and in TapeFollow mode a repeating
frame with button Mode1 changes the mode to RemoteControl. -/
theorem repeating_mode1_counterexample :
    (⟨RemoteButtons.Mode1, true⟩ : IRData).isRepeating = true ∧
    (loop ⟨SysMode.WallFollow, 0, 0⟩
      ⟨some ⟨RemoteButtons.Mode1, true⟩, 20, 0, 0, 0, 0⟩).state.currMode =
        SysMode.RemoteControl ∧
    (loop ⟨SysMode.TapeFollow, 0, 0⟩
      ⟨some ⟨RemoteButtons.Mode1, true⟩, 20, 0, 0, 0, 0⟩).state.currMode =
        SysMode.RemoteControl := by
  decide

/-- C6, amended: a repeating frame with a mode button (Mode1, Mode2 or Mode3)
leaves the mode unchanged in RemoteControl mode, and in the two autonomous
modes when the button is Mode2 or Mode3; a Mode1 frame in an autonomous mode
switches to RemoteControl whether it repeats or not. -/
theorem repeating_mode_button (s : State) (i : Input) (ev : IRData)
    (he : i.ir = some ev) (hr : ev.isRepeating = true)
    (hb : ev.command = RemoteButtons.Mode1 ∨ ev.command = RemoteButtons.Mode2 ∨
      ev.command = RemoteButtons.Mode3) :
    ((s.currMode = SysMode.RemoteControl ∨ ev.command ≠ RemoteButtons.Mode1) →
      (loop s i).state.currMode = s.currMode) ∧
    ((s.currMode ≠ SysMode.RemoteControl ∧ ev.command = RemoteButtons.Mode1) →
      (loop s i).state.currMode = SysMode.RemoteControl) := by
  obtain ⟨m, w, n⟩ := s
  constructor
  · intro h
    cases m with
    | RemoteControl =>
      rcases hb with h1 | h1 | h1 <;>
        simp [loop, he, remoteControlEvent, h1, hr, RemoteButtons.Up, RemoteButtons.Left,
          RemoteButtons.Right, RemoteButtons.Down, RemoteButtons.Mode1,
          RemoteButtons.Mode2, RemoteButtons.Mode3]
    | WallFollow =>
      rcases h with h | h
      · exact SysMode.noConfusion h
      · simp [loop, he, autonomousEvent, h]
    | TapeFollow =>
      rcases h with h | h
      · exact SysMode.noConfusion h
      · simp [loop, he, autonomousEvent, h]
  · rintro ⟨hm, h1⟩
    cases m with
    | RemoteControl => exact absurd rfl hm
    | WallFollow => simp [loop, he, autonomousEvent, h1]
    | TapeFollow => simp [loop, he, autonomousEvent, h1]

/-- C6 amended, at a repeating Mode3 frame in each of the three modes and a
repeating Mode1 frame in RemoteControl and in TapeFollow. -/
theorem repeating_mode_button_witness :
    (loop ⟨SysMode.RemoteControl, 0, 0⟩
      ⟨some ⟨0x47, true⟩, 0, 0, 0, 0, 0⟩).state.currMode = SysMode.RemoteControl ∧
    (loop ⟨SysMode.WallFollow, 0, 0⟩
      ⟨some ⟨0x47, true⟩, 0, 0, 0, 0, 0⟩).state.currMode = SysMode.WallFollow ∧
    (loop ⟨SysMode.TapeFollow, 0, 0⟩
      ⟨some ⟨0x47, true⟩, 0, 0, 0, 0, 0⟩).state.currMode = SysMode.TapeFollow ∧
    (loop ⟨SysMode.RemoteControl, 0, 0⟩
      ⟨some ⟨0x45, true⟩, 0, 0, 0, 0, 0⟩).state.currMode = SysMode.RemoteControl ∧
    (loop ⟨SysMode.TapeFollow, 0, 0⟩
      ⟨some ⟨0x45, true⟩, 0, 0, 0, 0, 0⟩).state.currMode = SysMode.RemoteControl :=
  ⟨(repeating_mode_button ⟨SysMode.RemoteControl, 0, 0⟩ ⟨some ⟨0x47, true⟩, 0, 0, 0, 0, 0⟩
      ⟨0x47, true⟩ rfl rfl (Or.inr (Or.inr rfl))).1 (Or.inl rfl),
   (repeating_mode_button ⟨SysMode.WallFollow, 0, 0⟩ ⟨some ⟨0x47, true⟩, 0, 0, 0, 0, 0⟩
      ⟨0x47, true⟩ rfl rfl (Or.inr (Or.inr rfl))).1 (Or.inr (by decide)),
   (repeating_mode_button ⟨SysMode.TapeFollow, 0, 0⟩ ⟨some ⟨0x47, true⟩, 0, 0, 0, 0, 0⟩
      ⟨0x47, true⟩ rfl rfl (Or.inr (Or.inr rfl))).1 (Or.inr (by decide)),
   (repeating_mode_button ⟨SysMode.RemoteControl, 0, 0⟩ ⟨some ⟨0x45, true⟩, 0, 0, 0, 0, 0⟩
      ⟨0x45, true⟩ rfl rfl (Or.inl rfl)).1 (Or.inl rfl),
   (repeating_mode_button ⟨SysMode.TapeFollow, 0, 0⟩ ⟨some ⟨0x45, true⟩, 0, 0, 0, 0, 0⟩
      ⟨0x45, true⟩ rfl rfl (Or.inl rfl)).2 ⟨by decide, rfl⟩⟩

/-- C7, the code at the failing input: in RemoteControl mode a non-repeating
frame with the Mode2 code 0x46 is taken by the Down branch, so the cart
drives backward, the countdown becomes 130 and the mode stays RemoteControl;
no Stop is written. -/
theorem mode2_taken_as_down :
    RemoteButtons.Mode2 = RemoteButtons.Down ∧
    loop initState ⟨some ⟨RemoteButtons.Mode2, false⟩, 0, 0, 0, 0, 0⟩ =
      ⟨⟨SysMode.RemoteControl, 130, 0⟩,
        [Action.leftServo 0, Action.rightServo 180, Action.resume]⟩ ∧
    (loop initState ⟨some ⟨RemoteButtons.Mode2, false⟩, 0, 0, 0, 0, 0⟩).state.currMode ≠
      SysMode.WallFollow := by
  decide

/-- C8: in WallFollow or TapeFollow mode a frame with button Mode1 writes
Stop and switches to RemoteControl; a frame with any other command changes
nothing in the state and only releases the frame, with no servo write and no
delay. -/
theorem autonomous_remote_event (s : State) (i : Input) (ev : IRData)
    (hm : s.currMode = SysMode.WallFollow ∨ s.currMode = SysMode.TapeFollow)
    (he : i.ir = some ev) :
    (ev.command = RemoteButtons.Mode1 →
      loop s i = ⟨{ s with currMode := SysMode.RemoteControl },
        [Action.leftServo 90, Action.rightServo 90, Action.resume]⟩) ∧
    (ev.command ≠ RemoteButtons.Mode1 →
      loop s i = ⟨s, [Action.resume]⟩) := by
  constructor
  · intro h
    rcases hm with hm | hm <;>
      simp [loop, hm, he, autonomousEvent, h, Movement.stopMoving]
  · intro h
    rcases hm with hm | hm <;>
      simp [loop, hm, he, autonomousEvent, h]

/-- C8 at a Mode1 frame in WallFollow and an Up frame in TapeFollow. -/
theorem autonomous_remote_event_witness :
    loop ⟨SysMode.WallFollow, 5, 3⟩ ⟨some ⟨0x45, false⟩, 80, 0, 0, 0, 0⟩ =
      ⟨⟨SysMode.RemoteControl, 5, 3⟩,
        [Action.leftServo 90, Action.rightServo 90, Action.resume]⟩ ∧
    loop ⟨SysMode.TapeFollow, 5, 3⟩ ⟨some ⟨0x18, false⟩, 10, 157, 150, 82, 50⟩ =
      ⟨⟨SysMode.TapeFollow, 5, 3⟩, [Action.resume]⟩ :=
  ⟨(autonomous_remote_event ⟨SysMode.WallFollow, 5, 3⟩ ⟨some ⟨0x45, false⟩, 80, 0, 0, 0, 0⟩
      ⟨0x45, false⟩ (Or.inl rfl) rfl).1 rfl,
   (autonomous_remote_event ⟨SysMode.TapeFollow, 5, 3⟩
      ⟨some ⟨0x18, false⟩, 10, 157, 150, 82, 50⟩
      ⟨0x18, false⟩ (Or.inr rfl) rfl).2 (by decide)⟩

/-! ## Tape classification -/

/-- The conversion to `uint32_t` of a rational between `n` and `n + 1`. -/
lemma Sensors.toUInt32_eq (x : ℚ) (n : Nat) (h0 : (n : ℚ) ≤ x) (h1 : x < (n : ℚ) + 1)
    (hn : n < 2 ^ 32) : Sensors.toUInt32 x = n := by
  have hx : (0 : ℚ) ≤ x := le_trans (Nat.cast_nonneg n) h0
  have hfl : ⌊x⌋₊ = n := (Nat.floor_eq_iff hx).mpr ⟨h0, h1⟩
  simp only [Sensors.toUInt32, hfl]
  exact Nat.mod_eq_of_lt hn

/-- C9, the code at the failing input: for the counts red 284, green 272,
blue 215, clear 100 the three stored differences are 1, 1 and 4, the
classifier returns LeftTape, and yet the exact sum of absolute differences
to the Mid reference (109/100) is smaller than the one to the Left reference
(164/100). -/
theorem readColor_truncation_returns_farther_label :
    Sensors.tapeDiff MID_TAPE_R MID_TAPE_G MID_TAPE_B
      ((284 : ℚ) / 100) ((272 : ℚ) / 100) ((215 : ℚ) / 100) = 1 ∧
    Sensors.tapeDiff LEFT_TAPE_R LEFT_TAPE_G LEFT_TAPE_B
      ((284 : ℚ) / 100) ((272 : ℚ) / 100) ((215 : ℚ) / 100) = 1 ∧
    Sensors.tapeDiff RIGHT_TAPE_R RIGHT_TAPE_G RIGHT_TAPE_B
      ((284 : ℚ) / 100) ((272 : ℚ) / 100) ((215 : ℚ) / 100) = 4 ∧
    Sensors.readColor 284 272 215 100 = TapeColor.LeftTape ∧
    Sensors.absDiffSum MID_TAPE_R MID_TAPE_G MID_TAPE_B
      ((284 : ℚ) / 100) ((272 : ℚ) / 100) ((215 : ℚ) / 100) = 109 / 100 ∧
    Sensors.absDiffSum LEFT_TAPE_R LEFT_TAPE_G LEFT_TAPE_B
      ((284 : ℚ) / 100) ((272 : ℚ) / 100) ((215 : ℚ) / 100) = 164 / 100 ∧
    Sensors.absDiffSum MID_TAPE_R MID_TAPE_G MID_TAPE_B
        ((284 : ℚ) / 100) ((272 : ℚ) / 100) ((215 : ℚ) / 100) <
      Sensors.absDiffSum LEFT_TAPE_R LEFT_TAPE_G LEFT_TAPE_B
        ((284 : ℚ) / 100) ((272 : ℚ) / 100) ((215 : ℚ) / 100) := by
  have hmid : Sensors.absDiffSum MID_TAPE_R MID_TAPE_G MID_TAPE_B
      ((284 : ℚ) / 100) ((272 : ℚ) / 100) ((215 : ℚ) / 100) = 109 / 100 := by
    simp only [Sensors.absDiffSum, MID_TAPE_R, MID_TAPE_G, MID_TAPE_B]
    norm_num [abs_of_nonneg, abs_of_nonpos]
  have hleft : Sensors.absDiffSum LEFT_TAPE_R LEFT_TAPE_G LEFT_TAPE_B
      ((284 : ℚ) / 100) ((272 : ℚ) / 100) ((215 : ℚ) / 100) = 164 / 100 := by
    simp only [Sensors.absDiffSum, LEFT_TAPE_R, LEFT_TAPE_G, LEFT_TAPE_B]
    norm_num [abs_of_nonneg, abs_of_nonpos]
  have hright : Sensors.absDiffSum RIGHT_TAPE_R RIGHT_TAPE_G RIGHT_TAPE_B
      ((284 : ℚ) / 100) ((272 : ℚ) / 100) ((215 : ℚ) / 100) = 451 / 100 := by
    simp only [Sensors.absDiffSum, RIGHT_TAPE_R, RIGHT_TAPE_G, RIGHT_TAPE_B]
    norm_num [abs_of_nonneg, abs_of_nonpos]
  have dmid : Sensors.tapeDiff MID_TAPE_R MID_TAPE_G MID_TAPE_B
      ((284 : ℚ) / 100) ((272 : ℚ) / 100) ((215 : ℚ) / 100) = 1 := by
    rw [Sensors.tapeDiff, hmid]
    exact Sensors.toUInt32_eq _ 1 (by norm_num) (by norm_num) (by norm_num)
  have dleft : Sensors.tapeDiff LEFT_TAPE_R LEFT_TAPE_G LEFT_TAPE_B
      ((284 : ℚ) / 100) ((272 : ℚ) / 100) ((215 : ℚ) / 100) = 1 := by
    rw [Sensors.tapeDiff, hleft]
    exact Sensors.toUInt32_eq _ 1 (by norm_num) (by norm_num) (by norm_num)
  have dright : Sensors.tapeDiff RIGHT_TAPE_R RIGHT_TAPE_G RIGHT_TAPE_B
      ((284 : ℚ) / 100) ((272 : ℚ) / 100) ((215 : ℚ) / 100) = 4 := by
    rw [Sensors.tapeDiff, hright]
    exact Sensors.toUInt32_eq _ 4 (by norm_num) (by norm_num) (by norm_num)
  refine ⟨dmid, dleft, dright, ?_, hmid, hleft, ?_⟩
  · have hcast : Sensors.readColor 284 272 215 100 =
        Sensors.classify ((284 : ℚ) / 100) ((272 : ℚ) / 100) ((215 : ℚ) / 100) := by
      simp only [Sensors.readColor, Nat.cast_ofNat]
    rw [hcast, Sensors.classify, dmid, dleft, dright]
    decide
  · rw [hmid, hleft]
    norm_num

/-- The three stored differences when the ratios are the Mid reference. -/
lemma Sensors.tapeDiff_at_mid :
    Sensors.tapeDiff MID_TAPE_R MID_TAPE_G MID_TAPE_B MID_TAPE_R MID_TAPE_G MID_TAPE_B = 0 ∧
    Sensors.tapeDiff LEFT_TAPE_R LEFT_TAPE_G LEFT_TAPE_B MID_TAPE_R MID_TAPE_G MID_TAPE_B = 2 ∧
    Sensors.tapeDiff RIGHT_TAPE_R RIGHT_TAPE_G RIGHT_TAPE_B
      MID_TAPE_R MID_TAPE_G MID_TAPE_B = 5 := by
  have hmid : Sensors.absDiffSum MID_TAPE_R MID_TAPE_G MID_TAPE_B
      MID_TAPE_R MID_TAPE_G MID_TAPE_B = 0 := by
    simp [Sensors.absDiffSum]
  have hleft : Sensors.absDiffSum LEFT_TAPE_R LEFT_TAPE_G LEFT_TAPE_B
      MID_TAPE_R MID_TAPE_G MID_TAPE_B = 273 / 100 := by
    simp only [Sensors.absDiffSum, LEFT_TAPE_R, LEFT_TAPE_G, LEFT_TAPE_B,
      MID_TAPE_R, MID_TAPE_G, MID_TAPE_B]
    norm_num [abs_of_nonneg, abs_of_nonpos]
  have hright : Sensors.absDiffSum RIGHT_TAPE_R RIGHT_TAPE_G RIGHT_TAPE_B
      MID_TAPE_R MID_TAPE_G MID_TAPE_B = 504 / 100 := by
    simp only [Sensors.absDiffSum, RIGHT_TAPE_R, RIGHT_TAPE_G, RIGHT_TAPE_B,
      MID_TAPE_R, MID_TAPE_G, MID_TAPE_B]
    norm_num [abs_of_nonneg, abs_of_nonpos]
  refine ⟨?_, ?_, ?_⟩
  · rw [Sensors.tapeDiff, hmid]
    exact Sensors.toUInt32_eq _ 0 (by norm_num) (by norm_num) (by norm_num)
  · rw [Sensors.tapeDiff, hleft]
    exact Sensors.toUInt32_eq _ 2 (by norm_num) (by norm_num) (by norm_num)
  · rw [Sensors.tapeDiff, hright]
    exact Sensors.toUInt32_eq _ 5 (by norm_num) (by norm_num) (by norm_num)

/-- C10: when the three colour ratios are exactly the Mid reference
(3.14, 3.00, 1.64), the classifier returns MidTape. -/
theorem readColor_at_mid_reference (redFrequency greenFrequency blueFrequency
      clearFrequency : Nat)
    (hr : (redFrequency : ℚ) / (clearFrequency : ℚ) = MID_TAPE_R)
    (hg : (greenFrequency : ℚ) / (clearFrequency : ℚ) = MID_TAPE_G)
    (hb : (blueFrequency : ℚ) / (clearFrequency : ℚ) = MID_TAPE_B) :
    Sensors.readColor redFrequency greenFrequency blueFrequency clearFrequency =
      TapeColor.MidTape := by
  obtain ⟨dmid, dleft, dright⟩ := Sensors.tapeDiff_at_mid
  simp only [Sensors.readColor, hr, hg, hb, Sensors.classify, dmid, dleft, dright]
  decide

/-- C10 at the counts red 157, green 150, blue 82, clear 50. -/
theorem readColor_at_mid_reference_witness :
    Sensors.readColor 157 150 82 50 = TapeColor.MidTape :=
  readColor_at_mid_reference 157 150 82 50
    (by norm_num [MID_TAPE_R]) (by norm_num [MID_TAPE_G]) (by norm_num [MID_TAPE_B])

/-- C11, counterexample: with two equal smallest differences the classifier
prefers Left to Mid, Mid to Right and Right to Left, so no total order on the
three labels makes the returned label always the greatest one among those
that attain the minimum. -/
theorem tieBreak_cyclic_counterexample :
    Sensors.minDiffColor 1 1 2 = TapeColor.LeftTape ∧
    Sensors.minDiffColor 1 2 1 = TapeColor.MidTape ∧
    Sensors.minDiffColor 2 1 1 = TapeColor.RightTape ∧
    ¬ ∃ le : TapeColor → TapeColor → Prop,
      (∀ a b, le a b → le b a → a = b) ∧
      (∀ a b c, le a b → le b c → le a c) ∧
      (∀ a b, le a b ∨ le b a) ∧
      ∀ m l r : Nat,
        (∀ c, Sensors.diffOf m l r (Sensors.minDiffColor m l r) ≤ Sensors.diffOf m l r c) ∧
        ∀ c, (∀ c1, Sensors.diffOf m l r c ≤ Sensors.diffOf m l r c1) →
          le c (Sensors.minDiffColor m l r) := by
  refine ⟨by decide, by decide, by decide, ?_⟩
  rintro ⟨le, hanti, htrans, _, hprio⟩
  have h1 : le TapeColor.MidTape TapeColor.LeftTape :=
    (hprio 1 1 2).2 TapeColor.MidTape (fun c1 => by cases c1 <;> decide)
  have h2 : le TapeColor.RightTape TapeColor.MidTape :=
    (hprio 1 2 1).2 TapeColor.RightTape (fun c1 => by cases c1 <;> decide)
  have h3 : le TapeColor.LeftTape TapeColor.RightTape :=
    (hprio 2 1 1).2 TapeColor.LeftTape (fun c1 => by cases c1 <;> decide)
  have h4 : TapeColor.LeftTape = TapeColor.RightTape :=
    hanti _ _ h3 (htrans _ _ _ h2 h1)
  exact TapeColor.noConfusion h4

/-- C11, amended: for every triple of stored differences the classifier
returns a label that attains the minimum, and it breaks ties by a fixed rule:
Left when Mid and Left tie below Right, Mid when Mid and Right tie below
Left, Right when Left and Right tie below Mid, and Right when all three are
equal. -/
theorem minDiffColor_minimum_and_ties (m l r : Nat) :
    (∀ c, Sensors.diffOf m l r (Sensors.minDiffColor m l r) ≤ Sensors.diffOf m l r c) ∧
    (m = l → l < r → Sensors.minDiffColor m l r = TapeColor.LeftTape) ∧
    (m = r → r < l → Sensors.minDiffColor m l r = TapeColor.MidTape) ∧
    (l = r → r < m → Sensors.minDiffColor m l r = TapeColor.RightTape) ∧
    (m = l → l = r → Sensors.minDiffColor m l r = TapeColor.RightTape) := by
  refine ⟨fun c => ?_, fun h1 h2 => ?_, fun h1 h2 => ?_, fun h1 h2 => ?_, fun h1 h2 => ?_⟩
  · unfold Sensors.minDiffColor
    split_ifs <;> cases c <;> simp only [Sensors.diffOf] <;> omega
  · have ha : ¬ m < l := by omega
    simp [Sensors.minDiffColor, ha, h2]
  · have ha : m < l := by omega
    have hb : ¬ r < m := by omega
    simp [Sensors.minDiffColor, ha, hb]
  · have ha : ¬ m < l := by omega
    have hb : ¬ l < r := by omega
    simp [Sensors.minDiffColor, ha, hb]
  · have ha : ¬ m < l := by omega
    have hb : ¬ l < r := by omega
    simp [Sensors.minDiffColor, ha, hb]

/-- C11 amended, at the four kinds of tie. -/
theorem minDiffColor_minimum_and_ties_witness :
    Sensors.minDiffColor 1 1 2 = TapeColor.LeftTape ∧
    Sensors.minDiffColor 1 2 1 = TapeColor.MidTape ∧
    Sensors.minDiffColor 2 1 1 = TapeColor.RightTape ∧
    Sensors.minDiffColor 3 3 3 = TapeColor.RightTape :=
  ⟨(minDiffColor_minimum_and_ties 1 1 2).2.1 rfl (by decide),
   (minDiffColor_minimum_and_ties 1 2 1).2.2.1 rfl (by decide),
   (minDiffColor_minimum_and_ties 2 1 1).2.2.2.1 rfl (by decide),
   (minDiffColor_minimum_and_ties 3 3 3).2.2.2.2 rfl rfl⟩

/-- The checked classifier agrees with `readColor` when the clear frequency
is not zero. -/
lemma Sensors.readColorChecked_of_ne_zero (redFrequency greenFrequency blueFrequency
      clearFrequency : Nat) (hc : clearFrequency ≠ 0) :
    Sensors.readColorChecked redFrequency greenFrequency blueFrequency clearFrequency =
      some (Sensors.readColor redFrequency greenFrequency blueFrequency clearFrequency) := by
  simp only [Sensors.readColorChecked, Sensors.divide, hc, if_false, Sensors.readColor]

/-- C12, counterexample: for a colour sample whose clear frequency is zero
the classifier executes its division with the divisor zero; the tape-follow
cycle reads and classifies such a sample like any other. -/
theorem readColor_zero_clear_counterexample :
    Sensors.divide 157 0 = none ∧
    Sensors.readColorChecked 157 150 82 0 = none ∧
    (loop ⟨SysMode.TapeFollow, 0, 0⟩ ⟨none, 0, 157, 150, 82, 0⟩).actions.take 4 =
      Sensors.readColorActions := by
  refine ⟨by decide, by decide, ?_⟩
  simp [loop, Sensors.readColorActions]

/-- C12, amended: for every colour sample whose clear frequency is not zero,
each of the three divisions of the classifier has a non-zero divisor and the
classification returns a label. -/
theorem readColor_divides_by_nonzero (redFrequency greenFrequency blueFrequency
      clearFrequency : Nat) (hc : clearFrequency ≠ 0) :
    Sensors.divide redFrequency clearFrequency =
      some ((redFrequency : ℚ) / (clearFrequency : ℚ)) ∧
    Sensors.divide greenFrequency clearFrequency =
      some ((greenFrequency : ℚ) / (clearFrequency : ℚ)) ∧
    Sensors.divide blueFrequency clearFrequency =
      some ((blueFrequency : ℚ) / (clearFrequency : ℚ)) ∧
    Sensors.readColorChecked redFrequency greenFrequency blueFrequency clearFrequency =
      some (Sensors.readColor redFrequency greenFrequency blueFrequency clearFrequency) := by
  refine ⟨?_, ?_, ?_, Sensors.readColorChecked_of_ne_zero _ _ _ _ hc⟩ <;>
    simp only [Sensors.divide, hc, if_false]

/-- C12 amended, at the sample red 157, green 150, blue 82, clear 50. -/
theorem readColor_divides_by_nonzero_witness :
    Sensors.divide 157 50 = some ((157 : Nat) / (50 : Nat) : ℚ) ∧
    Sensors.divide 150 50 = some ((150 : Nat) / (50 : Nat) : ℚ) ∧
    Sensors.divide 82 50 = some ((82 : Nat) / (50 : Nat) : ℚ) ∧
    Sensors.readColorChecked 157 150 82 50 = some (Sensors.readColor 157 150 82 50) :=
  readColor_divides_by_nonzero 157 150 82 50 (by decide)

/-- The classifier at three samples: the Mid, Left and Right reference
colours themselves. -/
lemma Sensors.readColor_reference_samples :
    Sensors.readColor 157 150 82 50 = TapeColor.MidTape ∧
    Sensors.readColor 238 231 292 100 = TapeColor.LeftTape ∧
    Sensors.readColor 127 445 336 100 = TapeColor.RightTape := by
  have hcast : ∀ a b c d : Nat, Sensors.readColor a b c d =
      Sensors.classify ((a : ℚ) / (d : ℚ)) ((b : ℚ) / (d : ℚ)) ((c : ℚ) / (d : ℚ)) :=
    fun _ _ _ _ => rfl
  have eval : ∀ refR refG refB x y z : ℚ, ∀ n : Nat,
      (n : ℚ) ≤ Sensors.absDiffSum refR refG refB x y z →
      Sensors.absDiffSum refR refG refB x y z < (n : ℚ) + 1 → n < 2 ^ 32 →
      Sensors.tapeDiff refR refG refB x y z = n :=
    fun _ _ _ _ _ _ n h0 h1 hn => Sensors.toUInt32_eq _ n h0 h1 hn
  refine ⟨?_, ?_, ?_⟩
  · have dm := eval MID_TAPE_R MID_TAPE_G MID_TAPE_B
      (((157 : Nat) : ℚ) / ((50 : Nat) : ℚ)) (((150 : Nat) : ℚ) / ((50 : Nat) : ℚ))
      (((82 : Nat) : ℚ) / ((50 : Nat) : ℚ)) 0
      (by norm_num [Sensors.absDiffSum, MID_TAPE_R, MID_TAPE_G, MID_TAPE_B])
      (by norm_num [Sensors.absDiffSum, MID_TAPE_R, MID_TAPE_G, MID_TAPE_B])
      (by norm_num)
    have dl := eval LEFT_TAPE_R LEFT_TAPE_G LEFT_TAPE_B
      (((157 : Nat) : ℚ) / ((50 : Nat) : ℚ)) (((150 : Nat) : ℚ) / ((50 : Nat) : ℚ))
      (((82 : Nat) : ℚ) / ((50 : Nat) : ℚ)) 2
      (by norm_num [Sensors.absDiffSum, LEFT_TAPE_R, LEFT_TAPE_G, LEFT_TAPE_B,
        abs_of_nonneg, abs_of_nonpos])
      (by norm_num [Sensors.absDiffSum, LEFT_TAPE_R, LEFT_TAPE_G, LEFT_TAPE_B,
        abs_of_nonneg, abs_of_nonpos])
      (by norm_num)
    have dr := eval RIGHT_TAPE_R RIGHT_TAPE_G RIGHT_TAPE_B
      (((157 : Nat) : ℚ) / ((50 : Nat) : ℚ)) (((150 : Nat) : ℚ) / ((50 : Nat) : ℚ))
      (((82 : Nat) : ℚ) / ((50 : Nat) : ℚ)) 5
      (by norm_num [Sensors.absDiffSum, RIGHT_TAPE_R, RIGHT_TAPE_G, RIGHT_TAPE_B,
        abs_of_nonneg, abs_of_nonpos])
      (by norm_num [Sensors.absDiffSum, RIGHT_TAPE_R, RIGHT_TAPE_G, RIGHT_TAPE_B,
        abs_of_nonneg, abs_of_nonpos])
      (by norm_num)
    rw [hcast, Sensors.classify, dm, dl, dr]
    decide
  · have dm := eval MID_TAPE_R MID_TAPE_G MID_TAPE_B
      (((238 : Nat) : ℚ) / ((100 : Nat) : ℚ)) (((231 : Nat) : ℚ) / ((100 : Nat) : ℚ))
      (((292 : Nat) : ℚ) / ((100 : Nat) : ℚ)) 2
      (by norm_num [Sensors.absDiffSum, MID_TAPE_R, MID_TAPE_G, MID_TAPE_B,
        abs_of_nonneg, abs_of_nonpos])
      (by norm_num [Sensors.absDiffSum, MID_TAPE_R, MID_TAPE_G, MID_TAPE_B,
        abs_of_nonneg, abs_of_nonpos])
      (by norm_num)
    have dl := eval LEFT_TAPE_R LEFT_TAPE_G LEFT_TAPE_B
      (((238 : Nat) : ℚ) / ((100 : Nat) : ℚ)) (((231 : Nat) : ℚ) / ((100 : Nat) : ℚ))
      (((292 : Nat) : ℚ) / ((100 : Nat) : ℚ)) 0
      (by norm_num [Sensors.absDiffSum, LEFT_TAPE_R, LEFT_TAPE_G, LEFT_TAPE_B])
      (by norm_num [Sensors.absDiffSum, LEFT_TAPE_R, LEFT_TAPE_G, LEFT_TAPE_B])
      (by norm_num)
    have dr := eval RIGHT_TAPE_R RIGHT_TAPE_G RIGHT_TAPE_B
      (((238 : Nat) : ℚ) / ((100 : Nat) : ℚ)) (((231 : Nat) : ℚ) / ((100 : Nat) : ℚ))
      (((292 : Nat) : ℚ) / ((100 : Nat) : ℚ)) 3
      (by norm_num [Sensors.absDiffSum, RIGHT_TAPE_R, RIGHT_TAPE_G, RIGHT_TAPE_B,
        abs_of_nonneg, abs_of_nonpos])
      (by norm_num [Sensors.absDiffSum, RIGHT_TAPE_R, RIGHT_TAPE_G, RIGHT_TAPE_B,
        abs_of_nonneg, abs_of_nonpos])
      (by norm_num)
    rw [hcast, Sensors.classify, dm, dl, dr]
    decide
  · have dm := eval MID_TAPE_R MID_TAPE_G MID_TAPE_B
      (((127 : Nat) : ℚ) / ((100 : Nat) : ℚ)) (((445 : Nat) : ℚ) / ((100 : Nat) : ℚ))
      (((336 : Nat) : ℚ) / ((100 : Nat) : ℚ)) 5
      (by norm_num [Sensors.absDiffSum, MID_TAPE_R, MID_TAPE_G, MID_TAPE_B,
        abs_of_nonneg, abs_of_nonpos])
      (by norm_num [Sensors.absDiffSum, MID_TAPE_R, MID_TAPE_G, MID_TAPE_B,
        abs_of_nonneg, abs_of_nonpos])
      (by norm_num)
    have dl := eval LEFT_TAPE_R LEFT_TAPE_G LEFT_TAPE_B
      (((127 : Nat) : ℚ) / ((100 : Nat) : ℚ)) (((445 : Nat) : ℚ) / ((100 : Nat) : ℚ))
      (((336 : Nat) : ℚ) / ((100 : Nat) : ℚ)) 3
      (by norm_num [Sensors.absDiffSum, LEFT_TAPE_R, LEFT_TAPE_G, LEFT_TAPE_B,
        abs_of_nonneg, abs_of_nonpos])
      (by norm_num [Sensors.absDiffSum, LEFT_TAPE_R, LEFT_TAPE_G, LEFT_TAPE_B,
        abs_of_nonneg, abs_of_nonpos])
      (by norm_num)
    have dr := eval RIGHT_TAPE_R RIGHT_TAPE_G RIGHT_TAPE_B
      (((127 : Nat) : ℚ) / ((100 : Nat) : ℚ)) (((445 : Nat) : ℚ) / ((100 : Nat) : ℚ))
      (((336 : Nat) : ℚ) / ((100 : Nat) : ℚ)) 0
      (by norm_num [Sensors.absDiffSum, RIGHT_TAPE_R, RIGHT_TAPE_G, RIGHT_TAPE_B])
      (by norm_num [Sensors.absDiffSum, RIGHT_TAPE_R, RIGHT_TAPE_G, RIGHT_TAPE_B])
      (by norm_num)
    rw [hcast, Sensors.classify, dm, dl, dr]
    decide

/-! ## Tape following -/

/-- C13: a tape-follow cycle without a remote frame reads the colour (four
20 ms sensor delays), then performs the one maneuver of the label read (Mid:
105/75 held 200 ms; Left: 105/105 held 100 ms; Right: 75/75 held 100 ms), and
always ends with Stop (90/90) and a 100 ms delay; the mode and both counters
are unchanged. -/
theorem tapeFollow_tick (s : State) (i : Input)
    (hm : s.currMode = SysMode.TapeFollow) (he : i.ir = none) :
    (loop s i).state = s ∧
    List.IsSuffix [Action.leftServo 90, Action.rightServo 90, Action.delay 100]
      (loop s i).actions ∧
    (Sensors.readColor i.redFrequency i.greenFrequency i.blueFrequency i.clearFrequency =
        TapeColor.MidTape →
      (loop s i).actions =
        [Action.delay 20, Action.delay 20, Action.delay 20, Action.delay 20,
         Action.leftServo 105, Action.rightServo 75, Action.delay 200,
         Action.leftServo 90, Action.rightServo 90, Action.delay 100]) ∧
    (Sensors.readColor i.redFrequency i.greenFrequency i.blueFrequency i.clearFrequency =
        TapeColor.LeftTape →
      (loop s i).actions =
        [Action.delay 20, Action.delay 20, Action.delay 20, Action.delay 20,
         Action.leftServo 105, Action.rightServo 105, Action.delay 100,
         Action.leftServo 90, Action.rightServo 90, Action.delay 100]) ∧
    (Sensors.readColor i.redFrequency i.greenFrequency i.blueFrequency i.clearFrequency =
        TapeColor.RightTape →
      (loop s i).actions =
        [Action.delay 20, Action.delay 20, Action.delay 20, Action.delay 20,
         Action.leftServo 75, Action.rightServo 75, Action.delay 100,
         Action.leftServo 90, Action.rightServo 90, Action.delay 100]) := by
  have hact : (loop s i).actions = Sensors.readColorActions ++
      (tapeFollowTask s (Sensors.readColor i.redFrequency i.greenFrequency i.blueFrequency
        i.clearFrequency)).actions := by
    simp only [loop, hm, he]
  have hst : (loop s i).state = s := by
    simp only [loop, hm, he, tapeFollowTask]
  refine ⟨hst, ?_, fun h => ?_, fun h => ?_, fun h => ?_⟩
  · rw [hact]
    cases Sensors.readColor i.redFrequency i.greenFrequency i.blueFrequency
        i.clearFrequency
    · exact ⟨Sensors.readColorActions ++ Movement.TapeFollow.moveStraight ++
        [Action.delay MOVEMENT_BIG_DELAY], rfl⟩
    · exact ⟨Sensors.readColorActions ++ Movement.TapeFollow.turnRight ++
        [Action.delay MOVEMENT_SMALL_DELAY], rfl⟩
    · exact ⟨Sensors.readColorActions ++ Movement.TapeFollow.turnLeft ++
        [Action.delay MOVEMENT_SMALL_DELAY], rfl⟩
  · rw [hact, h]; rfl
  · rw [hact, h]; rfl
  · rw [hact, h]; rfl

/-- C13 at three samples, one for each label. -/
theorem tapeFollow_tick_witness :
    (loop ⟨SysMode.TapeFollow, 5, 3⟩ ⟨none, 0, 157, 150, 82, 50⟩).actions =
        [Action.delay 20, Action.delay 20, Action.delay 20, Action.delay 20,
         Action.leftServo 105, Action.rightServo 75, Action.delay 200,
         Action.leftServo 90, Action.rightServo 90, Action.delay 100] ∧
    (loop ⟨SysMode.TapeFollow, 5, 3⟩ ⟨none, 0, 238, 231, 292, 100⟩).actions =
        [Action.delay 20, Action.delay 20, Action.delay 20, Action.delay 20,
         Action.leftServo 105, Action.rightServo 105, Action.delay 100,
         Action.leftServo 90, Action.rightServo 90, Action.delay 100] ∧
    (loop ⟨SysMode.TapeFollow, 5, 3⟩ ⟨none, 0, 127, 445, 336, 100⟩).actions =
        [Action.delay 20, Action.delay 20, Action.delay 20, Action.delay 20,
         Action.leftServo 75, Action.rightServo 75, Action.delay 100,
         Action.leftServo 90, Action.rightServo 90, Action.delay 100] ∧
    (loop ⟨SysMode.TapeFollow, 5, 3⟩ ⟨none, 0, 157, 150, 82, 50⟩).state =
      ⟨SysMode.TapeFollow, 5, 3⟩ :=
  ⟨(tapeFollow_tick ⟨SysMode.TapeFollow, 5, 3⟩ ⟨none, 0, 157, 150, 82, 50⟩ rfl rfl).2.2.1
      Sensors.readColor_reference_samples.1,
   (tapeFollow_tick ⟨SysMode.TapeFollow, 5, 3⟩ ⟨none, 0, 238, 231, 292, 100⟩ rfl rfl).2.2.2.1
      Sensors.readColor_reference_samples.2.1,
   (tapeFollow_tick ⟨SysMode.TapeFollow, 5, 3⟩ ⟨none, 0, 127, 445, 336, 100⟩ rfl rfl).2.2.2.2
      Sensors.readColor_reference_samples.2.2,
   (tapeFollow_tick ⟨SysMode.TapeFollow, 5, 3⟩ ⟨none, 0, 157, 150, 82, 50⟩ rfl rfl).1⟩

/-! ## Sensor failure, counters and mode changes -/

/-- A timed-out echo measurement gives the distance 0. -/
lemma Sensors.getDistance_zero : Sensors.getDistance 0 = 0 := by
  simp [Sensors.getDistance, Sensors.toUInt16]

/-- C14, counterexample: a wall-follow cycle whose echo measurement timed out
(duration 0, distance 0) does not take the no-wall branch: with the counter
at 3 it resets the counter and performs the too-close maneuver, and with the
counter at 10 it does not stop the cart. -/
theorem timeout_reading_counterexample :
    Sensors.getDistance 0 = 0 ∧
    loop ⟨SysMode.WallFollow, 0, 3⟩ ⟨none, Sensors.getDistance 0, 0, 0, 0, 0⟩ =
      ⟨⟨SysMode.WallFollow, 0, 0⟩,
        [Action.leftServo 180, Action.rightServo 80, Action.delay 200,
         Action.leftServo 180, Action.rightServo 0, Action.delay 100]⟩ ∧
    loop ⟨SysMode.WallFollow, 0, 10⟩ ⟨none, Sensors.getDistance 0, 0, 0, 0, 0⟩ =
      ⟨⟨SysMode.WallFollow, 0, 0⟩,
        [Action.leftServo 180, Action.rightServo 80, Action.delay 200,
         Action.leftServo 180, Action.rightServo 0, Action.delay 100]⟩ := by
  refine ⟨Sensors.getDistance_zero, ?_, ?_⟩ <;>
    rw [Sensors.getDistance_zero] <;> decide

/-- C14, amended: a wall-follow cycle without a remote frame whose echo
measurement timed out (so that the distance is 0) is treated as a wall that
is too close: the no-wall counter becomes 0, the mode stays WallFollow and
the cycle turns right for 200 ms and then goes straight for 100 ms. -/
theorem timeout_reading_too_close (s : State) (i : Input)
    (hm : s.currMode = SysMode.WallFollow) (he : i.ir = none)
    (hd : i.distance = Sensors.getDistance 0) :
    loop s i =
      ⟨{ s with noWallCount := 0 },
        [Action.leftServo 180, Action.rightServo 80, Action.delay 200,
         Action.leftServo 180, Action.rightServo 0, Action.delay 100]⟩ ∧
    (loop s i).state.currMode = SysMode.WallFollow := by
  rw [Sensors.getDistance_zero] at hd
  have hl : loop s i =
      ⟨{ s with noWallCount := 0 },
        [Action.leftServo 180, Action.rightServo 80, Action.delay 200,
         Action.leftServo 180, Action.rightServo 0, Action.delay 100]⟩ := by
    simp [loop, hm, he, hd, wallFollowTask, NO_WALL_DIST, SMALL_DIST,
      Movement.WallFollow.turnRight, Movement.WallFollow.moveStraight,
      MOVEMENT_BIG_DELAY, MOVEMENT_SMALL_DELAY, WALL_TURN_DEG]
  refine ⟨hl, ?_⟩
  rw [hl]
  exact hm

/-- C14 amended, with the no-wall counter at 7. -/
theorem timeout_reading_too_close_witness :
    loop ⟨SysMode.WallFollow, 0, 7⟩ ⟨none, Sensors.getDistance 0, 0, 0, 0, 0⟩ =
      ⟨⟨SysMode.WallFollow, 0, 0⟩,
        [Action.leftServo 180, Action.rightServo 80, Action.delay 200,
         Action.leftServo 180, Action.rightServo 0, Action.delay 100]⟩ ∧
    (loop ⟨SysMode.WallFollow, 0, 7⟩
      ⟨none, Sensors.getDistance 0, 0, 0, 0, 0⟩).state.currMode = SysMode.WallFollow :=
  timeout_reading_too_close ⟨SysMode.WallFollow, 0, 7⟩
    ⟨none, Sensors.getDistance 0, 0, 0, 0, 0⟩ rfl rfl rfl

/-- C15: the no-wall counter is at most 10 in the initial state, every cycle
from a state where it is at most 10 leaves it at most 10 (in every mode, for
every frame and every reading), and a wall-follow cycle without a frame and
with a reading of at most 70 cm leaves it 0. -/
theorem noWallCount_bounded :
    initState.noWallCount ≤ NO_WALL_MAX_COUNT ∧
    (∀ (s : State) (i : Input), s.noWallCount ≤ NO_WALL_MAX_COUNT →
      (loop s i).state.noWallCount ≤ NO_WALL_MAX_COUNT) ∧
    (∀ (s : State) (i : Input), s.currMode = SysMode.WallFollow → i.ir = none →
      i.distance ≤ 70 → (loop s i).state.noWallCount = 0) := by
  refine ⟨by decide, ?_, ?_⟩
  · intro s i h
    obtain ⟨m, w, n⟩ := s
    obtain ⟨ir, d, fr, fg, fb, fc⟩ := i
    simp only [NO_WALL_MAX_COUNT] at h ⊢
    cases m <;> cases ir <;>
      simp only [loop, remoteControlEvent, remoteControlIdle, autonomousEvent,
        wallFollowTask, tapeFollowTask, NO_WALL_MAX_COUNT] <;>
      (try split_ifs) <;> (try simp only) <;> omega
  · intro s i hm he hd
    have hnw : ¬ i.distance > NO_WALL_DIST := by simp only [NO_WALL_DIST]; omega
    simp only [loop, hm, he, wallFollowTask, hnw, if_false]
    split_ifs <;> rfl

/-- C15 at a no-wall cycle with the counter at 10, at one with the counter at
9, and at a cycle that sees a wall. -/
theorem noWallCount_bounded_witness :
    (loop ⟨SysMode.WallFollow, 0, 10⟩ ⟨none, 80, 0, 0, 0, 0⟩).state.noWallCount ≤
      NO_WALL_MAX_COUNT ∧
    (loop ⟨SysMode.WallFollow, 0, 9⟩ ⟨none, 80, 0, 0, 0, 0⟩).state.noWallCount ≤
      NO_WALL_MAX_COUNT ∧
    (loop ⟨SysMode.WallFollow, 0, 9⟩ ⟨none, 70, 0, 0, 0, 0⟩).state.noWallCount = 0 :=
  ⟨noWallCount_bounded.2.1 ⟨SysMode.WallFollow, 0, 10⟩ ⟨none, 80, 0, 0, 0, 0⟩ (by decide),
   noWallCount_bounded.2.1 ⟨SysMode.WallFollow, 0, 9⟩ ⟨none, 80, 0, 0, 0, 0⟩ (by decide),
   noWallCount_bounded.2.2 ⟨SysMode.WallFollow, 0, 9⟩ ⟨none, 70, 0, 0, 0, 0⟩ rfl rfl
     (by decide)⟩

/-- C16, counterexample: a wall-follow cycle without a remote frame, with a
reading of 80 cm and the no-wall counter at 10, changes the mode to
RemoteControl. -/
theorem mode_change_without_event_counterexample :
    (⟨none, 80, 0, 0, 0, 0⟩ : Input).ir = none ∧
    (loop ⟨SysMode.WallFollow, 0, 10⟩ ⟨none, 80, 0, 0, 0, 0⟩).state.currMode =
      SysMode.RemoteControl ∧
    (loop ⟨SysMode.WallFollow, 0, 10⟩ ⟨none, 80, 0, 0, 0, 0⟩).state.currMode ≠
      (⟨SysMode.WallFollow, 0, 10⟩ : State).currMode := by
  decide

/-- C16, amended: on a cycle without a remote frame the mode stays what it
was, whatever the readings and counters, except for the no-wall give-up: in
WallFollow mode with a reading above 70 cm and the no-wall counter at 10 or
more the mode becomes RemoteControl. -/
theorem mode_without_event (s : State) (i : Input) (he : i.ir = none) :
    ((s.currMode = SysMode.WallFollow ∧ i.distance > 70 ∧ s.noWallCount ≥ 10) →
      (loop s i).state.currMode = SysMode.RemoteControl) ∧
    (¬ (s.currMode = SysMode.WallFollow ∧ i.distance > 70 ∧ s.noWallCount ≥ 10) →
      (loop s i).state.currMode = s.currMode) := by
  constructor
  · rintro ⟨hm, hd, hc⟩
    rw [loop_noWall_giveUp s i hm he hd hc]
  · intro hn
    obtain ⟨m, w, n⟩ := s
    cases m
    · simp only [loop, he, remoteControlIdle]
      split_ifs <;> rfl
    · simp only [true_and, not_and, not_le] at hn
      simp only [loop, he, wallFollowTask, NO_WALL_DIST, NO_WALL_MAX_COUNT]
      split_ifs with h1 h2 <;> first | rfl | (exfalso; have := hn h1; omega)
    · simp only [loop, he, tapeFollowTask]

/-- C16 amended, at the give-up and at one cycle without a frame in each
mode. -/
theorem mode_without_event_witness :
    (loop ⟨SysMode.WallFollow, 0, 10⟩ ⟨none, 80, 0, 0, 0, 0⟩).state.currMode =
      SysMode.RemoteControl ∧
    (loop ⟨SysMode.WallFollow, 0, 9⟩ ⟨none, 80, 0, 0, 0, 0⟩).state.currMode =
      SysMode.WallFollow ∧
    (loop ⟨SysMode.RemoteControl, 1, 0⟩ ⟨none, 80, 0, 0, 0, 0⟩).state.currMode =
      SysMode.RemoteControl ∧
    (loop ⟨SysMode.TapeFollow, 0, 0⟩ ⟨none, 80, 157, 150, 82, 50⟩).state.currMode =
      SysMode.TapeFollow :=
  ⟨(mode_without_event ⟨SysMode.WallFollow, 0, 10⟩ ⟨none, 80, 0, 0, 0, 0⟩ rfl).1
      ⟨rfl, by decide, by decide⟩,
   (mode_without_event ⟨SysMode.WallFollow, 0, 9⟩ ⟨none, 80, 0, 0, 0, 0⟩ rfl).2
      (by decide),
   (mode_without_event ⟨SysMode.RemoteControl, 1, 0⟩ ⟨none, 80, 0, 0, 0, 0⟩ rfl).2
      (by decide),
   (mode_without_event ⟨SysMode.TapeFollow, 0, 0⟩ ⟨none, 80, 157, 150, 82, 50⟩ rfl).2
      (by decide)⟩

/-- C17, counterexample: the cycle that returns from TapeFollow to
RemoteControl on button Mode1, and the no-wall give-up, change the mode and
write Stop, but no delay follows before the cycle ends. -/
theorem mode_change_without_delay_counterexample :
    loop ⟨SysMode.TapeFollow, 0, 0⟩ ⟨some ⟨RemoteButtons.Mode1, false⟩, 0, 0, 0, 0, 0⟩ =
      ⟨⟨SysMode.RemoteControl, 0, 0⟩,
        [Action.leftServo 90, Action.rightServo 90, Action.resume]⟩ ∧
    loop ⟨SysMode.WallFollow, 0, 10⟩ ⟨none, 80, 0, 0, 0, 0⟩ =
      ⟨⟨SysMode.RemoteControl, 0, 10⟩, [Action.leftServo 90, Action.rightServo 90]⟩ := by
  decide

/-- C17, amended: every cycle that changes the mode writes Stop.  When the
mode was RemoteControl (a mode button), Stop is followed by a 100 ms delay
before the frame is released; when the mode was WallFollow or TapeFollow
(button Mode1, or the no-wall give-up) the new mode is RemoteControl and Stop
is the only servo command, with no delay after it. -/
theorem mode_change_stops (s : State) (i : Input)
    (hch : (loop s i).state.currMode ≠ s.currMode) :
    (s.currMode = SysMode.RemoteControl ∧
      (loop s i).actions =
        [Action.leftServo 90, Action.rightServo 90, Action.delay 100, Action.resume]) ∨
    (s.currMode ≠ SysMode.RemoteControl ∧
      (loop s i).state.currMode = SysMode.RemoteControl ∧
      ((loop s i).actions = [Action.leftServo 90, Action.rightServo 90, Action.resume] ∨
       (loop s i).actions = [Action.leftServo 90, Action.rightServo 90])) := by
  obtain ⟨m, w, n⟩ := s
  obtain ⟨ir, d, fr, fg, fb, fc⟩ := i
  cases m <;> cases ir <;>
    simp only [loop, remoteControlEvent, remoteControlIdle, autonomousEvent,
      wallFollowTask, tapeFollowTask] at hch ⊢ <;>
    (try split_ifs at hch ⊢) <;>
    simp_all [Movement.stopMoving, MOVEMENT_SMALL_DELAY]

/-- C17 amended, at a non-repeating Mode3 frame in RemoteControl (Stop, then
the delay) and at a Mode1 frame in TapeFollow (Stop only). -/
theorem mode_change_stops_witness :
    (loop ⟨SysMode.RemoteControl, 0, 0⟩ ⟨some ⟨0x47, false⟩, 0, 0, 0, 0, 0⟩).actions =
      [Action.leftServo 90, Action.rightServo 90, Action.delay 100, Action.resume] ∧
    ((loop ⟨SysMode.TapeFollow, 0, 0⟩ ⟨some ⟨0x45, false⟩, 0, 0, 0, 0, 0⟩).actions =
        [Action.leftServo 90, Action.rightServo 90, Action.resume] ∨
     (loop ⟨SysMode.TapeFollow, 0, 0⟩ ⟨some ⟨0x45, false⟩, 0, 0, 0, 0, 0⟩).actions =
        [Action.leftServo 90, Action.rightServo 90]) :=
  ⟨(mode_change_stops ⟨SysMode.RemoteControl, 0, 0⟩ ⟨some ⟨0x47, false⟩, 0, 0, 0, 0, 0⟩
      (by decide)).elim (fun h => h.2) (fun h => absurd rfl h.1),
   (mode_change_stops ⟨SysMode.TapeFollow, 0, 0⟩ ⟨some ⟨0x45, false⟩, 0, 0, 0, 0, 0⟩
      (by decide)).elim (fun h => absurd h.1 (by decide)) (fun h => h.2.2)⟩

/-! ## Steering commands per cycle -/

/-- The steering commands of a tape-follow cycle without a frame: the
maneuver of the label read, then Stop. -/
lemma steeringCommands_tapeFollow (s : State) (i : Input)
    (hm : s.currMode = SysMode.TapeFollow) (he : i.ir = none) :
    (steeringCommands (loop s i).actions).length = 2 := by
  have hact : (loop s i).actions = Sensors.readColorActions ++
      (tapeFollowTask s (Sensors.readColor i.redFrequency i.greenFrequency i.blueFrequency
        i.clearFrequency)).actions := by
    simp only [loop, hm, he]
  rw [hact]
  cases Sensors.readColor i.redFrequency i.greenFrequency i.blueFrequency
    i.clearFrequency <;> rfl

/-- C18, counterexample: the first cycle of the program (RemoteControl, no
frame, countdown 0) writes no steering command, and a tape-follow cycle
without a frame writes two (the maneuver, then Stop). -/
theorem steering_count_counterexample :
    (loop initState ⟨none, 0, 0, 0, 0, 0⟩).actions = [] ∧
    (steeringCommands (loop initState ⟨none, 0, 0, 0, 0, 0⟩).actions).length = 0 ∧
    (steeringCommands
      (loop ⟨SysMode.TapeFollow, 0, 0⟩ ⟨none, 0, 157, 150, 82, 50⟩).actions).length = 2 ∧
    steeringCommands
      (loop ⟨SysMode.WallFollow, 0, 0⟩ ⟨none, 10, 0, 0, 0, 0⟩).actions =
        [(180, 80), (180, 0)] := by
  refine ⟨by decide, by decide, ?_, by decide⟩
  exact steeringCommands_tapeFollow _ _ rfl rfl

/-- C18, amended: every cycle writes at most two steering commands.  It
writes two on a tape-follow sensor cycle and on a wall-follow cycle in the
too-close or too-far band; one on the other wall-follow sensor cycles, on the
RemoteControl cycle where the countdown is 1, for a movement button or a
non-repeating Mode3 button in RemoteControl, and for button Mode1 in an
autonomous mode; and none on every other cycle. -/
theorem steering_count (s : State) (i : Input) :
    (steeringCommands (loop s i).actions).length ≤ 2 ∧
    (i.ir = none → s.currMode = SysMode.TapeFollow →
      (steeringCommands (loop s i).actions).length = 2) ∧
    (i.ir = none → s.currMode = SysMode.WallFollow → i.distance ≤ 70 →
      (i.distance < 18 ∨ 24 ≤ i.distance) →
      (steeringCommands (loop s i).actions).length = 2) ∧
    (i.ir = none → s.currMode = SysMode.WallFollow →
      (70 < i.distance ∨ (18 ≤ i.distance ∧ i.distance < 24)) →
      (steeringCommands (loop s i).actions).length = 1) ∧
    (i.ir = none → s.currMode = SysMode.RemoteControl → s.waitIR = 1 →
      (steeringCommands (loop s i).actions).length = 1) ∧
    (i.ir = none → s.currMode = SysMode.RemoteControl → s.waitIR ≠ 1 →
      (steeringCommands (loop s i).actions).length = 0) ∧
    (∀ ev, i.ir = some ev → s.currMode = SysMode.RemoteControl →
      (ev.command % 256 = RemoteButtons.Up ∨ ev.command % 256 = RemoteButtons.Left ∨
        ev.command % 256 = RemoteButtons.Right ∨ ev.command % 256 = RemoteButtons.Down ∨
        (ev.command % 256 = RemoteButtons.Mode3 ∧ ev.isRepeating = false)) →
      (steeringCommands (loop s i).actions).length = 1) ∧
    (∀ ev, i.ir = some ev → s.currMode = SysMode.RemoteControl →
      ¬ (ev.command % 256 = RemoteButtons.Up ∨ ev.command % 256 = RemoteButtons.Left ∨
        ev.command % 256 = RemoteButtons.Right ∨ ev.command % 256 = RemoteButtons.Down ∨
        (ev.command % 256 = RemoteButtons.Mode3 ∧ ev.isRepeating = false)) →
      (steeringCommands (loop s i).actions).length = 0) ∧
    (∀ ev, i.ir = some ev → s.currMode ≠ SysMode.RemoteControl →
      ev.command = RemoteButtons.Mode1 →
      (steeringCommands (loop s i).actions).length = 1) ∧
    (∀ ev, i.ir = some ev → s.currMode ≠ SysMode.RemoteControl →
      ev.command ≠ RemoteButtons.Mode1 →
      (steeringCommands (loop s i).actions).length = 0) := by
  refine ⟨?_, ?_, ?_, ?_, ?_, ?_, ?_, ?_, ?_, ?_⟩
  · obtain ⟨m, w, n⟩ := s
    obtain ⟨ir, d, fr, fg, fb, fc⟩ := i
    cases m <;> cases ir
    · simp only [loop, remoteControlIdle]
      split_ifs <;> (dsimp only; decide)
    · simp only [loop, remoteControlEvent]
      split_ifs <;> (dsimp only; decide)
    · simp only [loop, wallFollowTask]
      split_ifs <;> (dsimp only; decide)
    · simp only [loop, autonomousEvent]
      split_ifs <;> (dsimp only; decide)
    · exact le_of_eq (steeringCommands_tapeFollow _ _ rfl rfl)
    · simp only [loop, autonomousEvent]
      split_ifs <;> (dsimp only; decide)
  · intro he hm
    exact steeringCommands_tapeFollow s i hm he
  · intro he hm hd hband
    have hnw : ¬ i.distance > NO_WALL_DIST := by simp only [NO_WALL_DIST]; omega
    simp only [loop, hm, he, wallFollowTask, hnw, if_false, SMALL_DIST, BIG_DIST]
    split_ifs <;> first | rfl | (exfalso; omega)
  · intro he hm hband
    simp only [loop, hm, he, wallFollowTask, NO_WALL_DIST, SMALL_DIST, BIG_DIST]
    split_ifs <;> first | rfl | (exfalso; omega)
  · intro he hm hw
    rw [loop_idle_one s i hm he hw]
    rfl
  · intro he hm hw
    simp only [loop, hm, he, remoteControlIdle]
    split_ifs <;> first | rfl | (exfalso; omega)
  · intro ev he hm hb
    simp only [loop, hm, he, remoteControlEvent]
    split_ifs <;> first | rfl | (exfalso; simp_all [RemoteButtons.Mode2, RemoteButtons.Down])
  · intro ev he hm hb
    simp only [loop, hm, he, remoteControlEvent]
    split_ifs <;> first | rfl | (exfalso; simp_all [RemoteButtons.Mode2, RemoteButtons.Down])
  · intro ev he hm h1
    obtain ⟨m, w, n⟩ := s
    cases m
    · exact absurd rfl hm
    · simp only [loop, he, autonomousEvent, h1, if_true]; rfl
    · simp only [loop, he, autonomousEvent, h1, if_true]; rfl
  · intro ev he hm h1
    obtain ⟨m, w, n⟩ := s
    cases m
    · exact absurd rfl hm
    · simp only [loop, he, autonomousEvent, h1, if_false]; rfl
    · simp only [loop, he, autonomousEvent, h1, if_false]; rfl

/-- C18 amended, at a cycle with no command, one with one command and one
with two. -/
theorem steering_count_witness :
    (steeringCommands (loop initState ⟨none, 0, 0, 0, 0, 0⟩).actions).length = 0 ∧
    (steeringCommands
      (loop initState ⟨some ⟨0x18, false⟩, 0, 0, 0, 0, 0⟩).actions).length = 1 ∧
    (steeringCommands
      (loop ⟨SysMode.TapeFollow, 0, 0⟩ ⟨none, 0, 157, 150, 82, 50⟩).actions).length = 2 :=
  ⟨(steering_count initState ⟨none, 0, 0, 0, 0, 0⟩).2.2.2.2.2.1 rfl rfl (by decide),
   (steering_count initState ⟨some ⟨0x18, false⟩, 0, 0, 0, 0, 0⟩).2.2.2.2.2.2.1
      ⟨0x18, false⟩ rfl rfl (Or.inl rfl),
   (steering_count ⟨SysMode.TapeFollow, 0, 0⟩ ⟨none, 0, 157, 150, 82, 50⟩).2.1 rfl rfl⟩

/-! ## The countdown and reachability -/

/-- C19: the countdown is between 0 and 130 in the initial state and every
cycle keeps it there.  On a RemoteControl cycle without a frame the 8-bit
decrement is applied only above 1, where it gives the true predecessor (no
wrap-around); at 1 the cycle stops the cart and stores 0; at 0 the cycle
emits nothing and leaves 0.  Cycles in WallFollow or TapeFollow mode leave
the countdown as it is. -/
theorem waitIR_bounded :
    initState.waitIR ≤ 130 ∧
    (∀ (s : State) (i : Input), s.waitIR ≤ 130 → (loop s i).state.waitIR ≤ 130) ∧
    (∀ (s : State) (i : Input), s.currMode = SysMode.RemoteControl → i.ir = none →
      s.waitIR ≤ 130 →
      (1 < s.waitIR →
        (loop s i).state.waitIR = s.waitIR - 1 ∧ 1 ≤ (loop s i).state.waitIR ∧
        (loop s i).actions = [Action.delay 1]) ∧
      (s.waitIR = 1 →
        (loop s i).state.waitIR = 0 ∧
        (loop s i).actions = [Action.leftServo 90, Action.rightServo 90]) ∧
      (s.waitIR = 0 →
        (loop s i).state.waitIR = 0 ∧ (loop s i).actions = [])) ∧
    (∀ (s : State) (i : Input), s.currMode ≠ SysMode.RemoteControl →
      (loop s i).state.waitIR = s.waitIR) := by
  refine ⟨by decide, ?_, ?_, ?_⟩
  · intro s i h
    obtain ⟨m, w, n⟩ := s
    obtain ⟨ir, d, fr, fg, fb, fc⟩ := i
    simp only at h
    cases m <;> cases ir <;>
      simp only [loop, remoteControlEvent, remoteControlIdle, autonomousEvent,
        wallFollowTask, tapeFollowTask, WAIT_IR_SIGNAL_BEFORE_STOP] <;>
      (try split_ifs) <;> (try simp only) <;> omega
  · intro s i hm he hb
    refine ⟨fun hw => ?_, fun hw => ?_, fun hw => ?_⟩
    · rw [loop_idle_above_one s i hm he hw (by omega)]
      exact ⟨rfl, by simp only; omega, rfl⟩
    · rw [loop_idle_one s i hm he hw]
      exact ⟨rfl, rfl⟩
    · simp [loop, hm, he, remoteControlIdle, hw]
  · intro s i hm
    obtain ⟨m, w, n⟩ := s
    obtain ⟨ir, d, fr, fg, fb, fc⟩ := i
    cases m <;> cases ir <;>
      simp only [loop, autonomousEvent, wallFollowTask, tapeFollowTask] <;>
      (try split_ifs) <;> first | rfl | exact absurd rfl hm

/-- C19 at the countdown values 130, 2, 1 and 0 on a cycle without a frame,
at a movement button, and at a cycle in TapeFollow mode. -/
theorem waitIR_bounded_witness :
    (loop ⟨SysMode.RemoteControl, 130, 0⟩ ⟨none, 0, 0, 0, 0, 0⟩).state.waitIR = 130 - 1 ∧
    (loop ⟨SysMode.RemoteControl, 2, 0⟩ ⟨none, 0, 0, 0, 0, 0⟩).state.waitIR = 2 - 1 ∧
    (loop ⟨SysMode.RemoteControl, 1, 0⟩ ⟨none, 0, 0, 0, 0, 0⟩).state.waitIR = 0 ∧
    ((loop ⟨SysMode.RemoteControl, 0, 0⟩ ⟨none, 0, 0, 0, 0, 0⟩).state.waitIR = 0 ∧
      (loop ⟨SysMode.RemoteControl, 0, 0⟩ ⟨none, 0, 0, 0, 0, 0⟩).actions = []) ∧
    (loop ⟨SysMode.RemoteControl, 5, 0⟩
      ⟨some ⟨0x18, true⟩, 0, 0, 0, 0, 0⟩).state.waitIR ≤ 130 ∧
    (loop ⟨SysMode.TapeFollow, 5, 0⟩ ⟨none, 0, 157, 150, 82, 50⟩).state.waitIR = 5 :=
  ⟨((waitIR_bounded.2.2.1 ⟨SysMode.RemoteControl, 130, 0⟩ ⟨none, 0, 0, 0, 0, 0⟩ rfl rfl
      (by decide)).1 (by decide)).1,
   ((waitIR_bounded.2.2.1 ⟨SysMode.RemoteControl, 2, 0⟩ ⟨none, 0, 0, 0, 0, 0⟩ rfl rfl
      (by decide)).1 (by decide)).1,
   ((waitIR_bounded.2.2.1 ⟨SysMode.RemoteControl, 1, 0⟩ ⟨none, 0, 0, 0, 0, 0⟩ rfl rfl
      (by decide)).2.1 rfl).1,
   (waitIR_bounded.2.2.1 ⟨SysMode.RemoteControl, 0, 0⟩ ⟨none, 0, 0, 0, 0, 0⟩ rfl rfl
      (by decide)).2.2 rfl,
   waitIR_bounded.2.1 ⟨SysMode.RemoteControl, 5, 0⟩ ⟨some ⟨0x18, true⟩, 0, 0, 0, 0, 0⟩
      (by decide),
   waitIR_bounded.2.2.2 ⟨SysMode.TapeFollow, 5, 0⟩ ⟨none, 0, 157, 150, 82, 50⟩
      (by decide)⟩

/-- No cycle enters WallFollow mode from another mode: in RemoteControl the
code 0x46 is taken by the Down branch. -/
lemma loop_not_wallFollow (s : State) (i : Input)
    (h : s.currMode ≠ SysMode.WallFollow) :
    (loop s i).state.currMode ≠ SysMode.WallFollow := by
  obtain ⟨m, w, n⟩ := s
  obtain ⟨ir, d, fr, fg, fb, fc⟩ := i
  cases m <;> cases ir <;>
    simp only [loop, remoteControlEvent, remoteControlIdle, autonomousEvent,
      tapeFollowTask, RemoteButtons.Down, RemoteButtons.Mode2] <;>
    (try split_ifs) <;> first | exact absurd rfl h | exact SysMode.noConfusion

/-- A run from a state that is not in WallFollow mode does not end in
WallFollow mode. -/
lemma run_not_wallFollow (ins : List Input) :
    ∀ s : State, s.currMode ≠ SysMode.WallFollow →
      (run s ins).1.currMode ≠ SysMode.WallFollow := by
  induction ins with
  | nil => intro s h; exact h
  | cons i rest ih =>
    intro s h
    exact ih (loop s i).state (loop_not_wallFollow s i h)

/-- C20: WallFollow mode is unreachable.  Mode2 and Down are the same code and
Down is tested first, so after every finite sequence of cycles from the
initial state, whatever frames, readings and colour samples arrive, the mode
is not WallFollow. -/
theorem wallFollow_unreachable :
    RemoteButtons.Mode2 = RemoteButtons.Down ∧
    ∀ ins : List Input, (run initState ins).1.currMode ≠ SysMode.WallFollow :=
  ⟨rfl, fun ins => run_not_wallFollow ins initState (by decide)⟩

end ArduinoChallenge
